import Mathlib

/-!
# Synchronisation primitives of kern/thread/synch.c

A shallow embedding of the semaphore, lock, condition variable and
reader-writer lock of `kern/thread/synch.c` (declared in
`kern/include/synch.h`).

* A pointer is a natural number, `0` being `NULL`.
* `unsigned` fields are naturals reduced modulo `2 ^ 32`.
* A C function that can suspend the calling thread is split at its
  suspension point (`wchan_sleep`): the entry part runs up to the first
  sleep or to the return, the `_resume` part runs from the wake-up to the
  next sleep or to the return.  Every part reports what it did as a `Res`:
  it returned, it went to sleep on a wait channel, or a `KASSERT` failed.
* Every part also reports the calls it made to the kernel collaborators
  (spinlock, wait channel, allocator) as a list of `Eff`.
-/

namespace OpsClass

/-- Identity of a thread: the value of `curthread`. -/
abbrev Tid := Nat

/-- An address; `0` is `NULL`. -/
abbrev Ptr := Nat

/-- Number of values of the C type `unsigned` on the 32-bit target. -/
def UINT_MOD : Nat := 4294967296

/-- The C statement `n++` on an `unsigned`. -/
def uinc (n : Nat) : Nat := (n + 1) % UINT_MOD

/-- The C statement `n--` on an `unsigned`: zero wraps around to the largest
value.  For `n < UINT_MOD` this is `(n + (UINT_MOD - 1)) % UINT_MOD`
(`udec_eq_mod`). -/
def udec (n : Nat) : Nat := if n = 0 then UINT_MOD - 1 else n - 1

/-- Calls made to the kernel collaborators, in program order. -/
inductive Eff where
  | alloc (p : Ptr)
  | free (p : Ptr)
  | access (p : Ptr)
  | spinlock_init (owner : Ptr)
  | spinlock_cleanup (owner : Ptr)
  | spinlock_acquire (owner : Ptr)
  | spinlock_release (owner : Ptr)
  | wchan_sleep (wc : Ptr) (t : Tid)
  | wchan_wakeone (wc : Ptr) (woken : Option Tid)
  | wchan_wakeall (wc : Ptr) (woken : List Tid)
  deriving DecidableEq, Repr

/-- Outcome of one part of a C function: it returned, it suspended the
caller on the wait channel at address `wc`, or a `KASSERT` failed.  Each
outcome carries the state of the object at that point and the collaborator
calls made so far. -/
inductive Res (σ : Type) where
  | ret (s : σ) (log : List Eff)
  | blocked (wc : Ptr) (s : σ) (log : List Eff)
  | panic (s : σ) (log : List Eff)
  deriving DecidableEq, Repr

/-- Embed the outcome of a callee into the caller: the callee's object is
written back with `f` and the caller's earlier calls `pre` go in front. -/
def Res.lift {σ τ : Type} (f : σ → τ) (pre : List Eff) : Res σ → Res τ
  | .ret s log => .ret (f s) (pre ++ log)
  | .blocked wc s log => .blocked wc (f s) (pre ++ log)
  | .panic s log => .panic (f s) (pre ++ log)

/-- The state carried by an outcome. -/
def Res.state {σ : Type} : Res σ → σ
  | .ret s _ => s
  | .blocked _ s _ => s
  | .panic s _ => s

/-- The collaborator calls carried by an outcome. -/
def Res.log {σ : Type} : Res σ → List Eff
  | .ret _ log => log
  | .blocked _ _ log => log
  | .panic _ log => log

/-- Whether the outcome is a failed `KASSERT`. -/
def Res.isPanic {σ : Type} : Res σ → Bool
  | .panic _ _ => true
  | _ => false

/-- Whether the outcome is a return to the caller. -/
def Res.isRet {σ : Type} : Res σ → Bool
  | .ret _ _ => true
  | _ => false

/-- Run `k` after a part that returned; a sleep or a failed assertion ends
the function there. -/
def Res.seq {σ : Type} (r : Res σ) (k : σ → Res σ) : Res σ :=
  match r with
  | .ret s log => (k s).lift id log
  | other => other

/-! ## Wait channel -/

/-- Modelled from the spec: the wait channel (`struct wchan`, whose code is
not among the sources): a queue of sleeping threads at an address. -/
structure Wchan where
  wc_addr : Ptr
  wc_threads : List Tid
  deriving DecidableEq, Repr

/-- Modelled from the spec: `wchan_sleep`, whose code is not among the
sources: the calling thread joins the queue (and gives up the guard
spinlock in the same instant; it holds the spinlock again when the call
returns after a wake-up). -/
def wchan_sleep (wc : Wchan) (t : Tid) : Wchan :=
  { wc with wc_threads := wc.wc_threads ++ [t] }

/-- Modelled from the spec: `wchan_wakeone`, whose code is not among the
sources: one sleeper leaves the queue, none when the queue is empty.  The
wake order is not promised, so `pick` chooses the sleeper. -/
def wchan_wakeone (wc : Wchan) (pick : Nat) : Option Tid × Wchan :=
  match wc.wc_threads with
  | [] => (none, wc)
  | t :: ts =>
    ((t :: ts).get? (pick % (t :: ts).length),
     { wc with wc_threads := (t :: ts).eraseIdx (pick % (t :: ts).length) })

/-- Modelled from the spec: `wchan_wakeall`, whose code is not among the
sources: every sleeper leaves the queue. -/
def wchan_wakeall (wc : Wchan) : List Tid × Wchan :=
  (wc.wc_threads, { wc with wc_threads := [] })

/-- The threads made runnable by wake-ups on the wait channel at `wc`. -/
def wokenOn (wc : Ptr) : List Eff → List Tid
  | [] => []
  | .wchan_wakeone w (some t) :: rest =>
    if w = wc then t :: wokenOn wc rest else wokenOn wc rest
  | .wchan_wakeall w ts :: rest =>
    if w = wc then ts ++ wokenOn wc rest else wokenOn wc rest
  | _ :: rest => wokenOn wc rest

/-! ## Lock -/

/-- The fields of `struct lock`.  `lk_addr` is the address of the struct
itself, `lk_name` the address of the copied name; the spinlock `lk_lock`
is identified by `lk_addr`. -/
structure Lock where
  lk_addr : Ptr
  lk_name : Ptr
  lk_wchan : Wchan
  lk_currthread : Option Tid
  lk_isheld : Bool
  lk_count : Nat
  deriving DecidableEq, Repr

/-- The C function `lock_do_i_hold` on a non-null lock. -/
def lock_do_i_hold (lock : Lock) (curthread : Tid) : Bool :=
  if lock.lk_isheld == true && lock.lk_currthread == some curthread then
    true
  else
    false

/-- The loop of `lock_acquire` and what follows it, run with `lk_lock`
held: sleep on the wait channel while the lock is held, else take it. -/
def lock_acquire_loop (lock : Lock) (curthread : Tid) (log : List Eff) : Res Lock :=
  if lock.lk_isheld then
    .blocked lock.lk_wchan.wc_addr
      { lock with lk_wchan := wchan_sleep lock.lk_wchan curthread }
      (log ++ [.wchan_sleep lock.lk_wchan.wc_addr curthread])
  else
    .ret { lock with lk_count := udec lock.lk_count,
                     lk_currthread := some curthread,
                     lk_isheld := true }
      (log ++ [.spinlock_release lock.lk_addr])

/-- The C function `lock_acquire` on a non-null lock, up to its first sleep
or its return; `in_interrupt` is `curthread->t_in_interrupt`.  The
`HANGMAN_` hooks are the deadlock detector's and change nothing here. -/
def lock_acquire (lock : Lock) (curthread : Tid) (in_interrupt : Bool) : Res Lock :=
  if in_interrupt != false then
    .panic lock []
  else
    lock_acquire_loop { lock with lk_count := uinc lock.lk_count } curthread
      [.spinlock_acquire lock.lk_addr]

/-- The C function `lock_acquire` from a wake-up inside its loop (the
thread holds `lk_lock` again) to the next sleep or the return. -/
def lock_acquire_resume (lock : Lock) (curthread : Tid) : Res Lock :=
  lock_acquire_loop lock curthread [.spinlock_acquire lock.lk_addr]

/-- The C function `lock_release` on a non-null lock; `pick` chooses which
sleeper `wchan_wakeone` wakes. -/
def lock_release (lock : Lock) (curthread : Tid) (pick : Nat) : Res Lock :=
  if lock_do_i_hold lock curthread = false then
    .panic lock []
  else
    let woken := wchan_wakeone lock.lk_wchan pick
    .ret { lock with lk_isheld := false, lk_currthread := none, lk_wchan := woken.2 }
      [.spinlock_acquire lock.lk_addr,
       .wchan_wakeone lock.lk_wchan.wc_addr woken.1,
       .spinlock_release lock.lk_addr]

/-! ## Condition variable -/

/-- The fields of `struct cv`; the spinlock `cv_lock` is identified by
`cv_addr`. -/
structure Cv where
  cv_addr : Ptr
  cv_name : Ptr
  cv_wchan : Wchan
  deriving DecidableEq, Repr

/-- The C function `cv_wait` on a non-null cv, up to its sleep.  The lock
pointer may be `NULL` (`none`): `lock_do_i_hold` then fails its own
assertion. -/
def cv_wait (cv : Cv) (lock : Option Lock) (curthread : Tid) (pick : Nat) :
    Res (Cv × Option Lock) :=
  match lock with
  | none => .panic (cv, none) []
  | some l =>
    if lock_do_i_hold l curthread = false then
      .panic (cv, some l) []
    else
      match lock_release l curthread pick with
      | .ret l1 log =>
        .blocked cv.cv_wchan.wc_addr
          ({ cv with cv_wchan := wchan_sleep cv.cv_wchan curthread }, some l1)
          ([.spinlock_acquire cv.cv_addr] ++ log ++
            [.wchan_sleep cv.cv_wchan.wc_addr curthread])
      | r => r.lift (fun l1 => (cv, some l1)) [.spinlock_acquire cv.cv_addr]

/-- The C function `cv_wait` from the wake-up on the cv's wait channel (the
thread holds `cv_lock` again) to the first sleep inside `lock_acquire` or
to the return. -/
def cv_wait_resume (cv : Cv) (lock : Lock) (curthread : Tid) (in_interrupt : Bool) :
    Res (Cv × Option Lock) :=
  (lock_acquire lock curthread in_interrupt).lift (fun l1 => (cv, some l1))
    [.spinlock_release cv.cv_addr]

/-- The C function `cv_signal` on a non-null cv. -/
def cv_signal (cv : Cv) (lock : Option Lock) (curthread : Tid) (pick : Nat) :
    Res (Cv × Option Lock) :=
  match lock with
  | none => .panic (cv, none) []
  | some l =>
    if lock_do_i_hold l curthread = false then
      .panic (cv, some l) []
    else
      let woken := wchan_wakeone cv.cv_wchan pick
      .ret ({ cv with cv_wchan := woken.2 }, some l)
        [.spinlock_acquire cv.cv_addr,
         .wchan_wakeone cv.cv_wchan.wc_addr woken.1,
         .spinlock_release cv.cv_addr]

/-- The C function `cv_broadcast` on a non-null cv. -/
def cv_broadcast (cv : Cv) (lock : Option Lock) (curthread : Tid) :
    Res (Cv × Option Lock) :=
  match lock with
  | none => .panic (cv, none) []
  | some l =>
    if lock_do_i_hold l curthread = false then
      .panic (cv, some l) []
    else
      let woken := wchan_wakeall cv.cv_wchan
      .ret ({ cv with cv_wchan := woken.2 }, some l)
        [.spinlock_acquire cv.cv_addr,
         .wchan_wakeall cv.cv_wchan.wc_addr woken.1,
         .spinlock_release cv.cv_addr]

/-! ## Semaphore -/

/-- The fields of `struct semaphore`; the spinlock `sem_lock` is identified
by `sem_addr`. -/
structure Semaphore where
  sem_addr : Ptr
  sem_name : Ptr
  sem_wchan : Wchan
  sem_count : Nat
  deriving DecidableEq, Repr

/-- The loop of `P` and what follows it, run with `sem_lock` held. -/
def P_loop (sem : Semaphore) (curthread : Tid) (log : List Eff) : Res Semaphore :=
  if sem.sem_count == 0 then
    .blocked sem.sem_wchan.wc_addr
      { sem with sem_wchan := wchan_sleep sem.sem_wchan curthread }
      (log ++ [.wchan_sleep sem.sem_wchan.wc_addr curthread])
  else if ¬ (sem.sem_count > 0) then
    .panic sem log
  else
    .ret { sem with sem_count := udec sem.sem_count }
      (log ++ [.spinlock_release sem.sem_addr])

/-- The C function `P` on a non-null semaphore, up to its first sleep or
its return; `in_interrupt` is `curthread->t_in_interrupt`. -/
def P (sem : Semaphore) (curthread : Tid) (in_interrupt : Bool) : Res Semaphore :=
  if in_interrupt != false then
    .panic sem []
  else
    P_loop sem curthread [.spinlock_acquire sem.sem_addr]

/-- The C function `P` from a wake-up inside its loop to the next sleep or
the return. -/
def P_resume (sem : Semaphore) (curthread : Tid) : Res Semaphore :=
  P_loop sem curthread [.spinlock_acquire sem.sem_addr]

/-- The C function `V` on a non-null semaphore; `pick` chooses which
sleeper `wchan_wakeone` wakes. -/
def V (sem : Semaphore) (pick : Nat) : Res Semaphore :=
  let sem1 := { sem with sem_count := uinc sem.sem_count }
  if ¬ (sem1.sem_count > 0) then
    .panic sem1 [.spinlock_acquire sem.sem_addr]
  else
    let woken := wchan_wakeone sem1.sem_wchan pick
    .ret { sem1 with sem_wchan := woken.2 }
      [.spinlock_acquire sem.sem_addr,
       .wchan_wakeone sem.sem_wchan.wc_addr woken.1,
       .spinlock_release sem.sem_addr]

/-! ## Allocation -/

/-- Modelled from the spec: the kernel allocator, whose code is not among
the sources: allocation can fail.  `oracle n` tells whether the request
number `n` succeeds, `reqs` counts the requests made, and `log` records the
allocator and initialisation calls and the accesses through object
pointers, in program order. -/
structure Heap where
  oracle : Nat → Bool
  reqs : Nat
  log : List Eff

/-- Append calls to the record of a heap. -/
def Heap.emit (h : Heap) (es : List Eff) : Heap :=
  { h with log := h.log ++ es }

/-- Modelled from the spec: `kmalloc`, whose code is not among the sources:
a fresh non-null address, or `NULL` when the request fails. -/
def kmalloc (h : Heap) : Ptr × Heap :=
  if h.oracle h.reqs then
    (h.reqs + 1, { h with reqs := h.reqs + 1, log := h.log ++ [.alloc (h.reqs + 1)] })
  else
    (0, { h with reqs := h.reqs + 1 })

/-- Modelled from the spec: `kstrdup`, whose code is not among the sources:
a fresh copy of the name, or `NULL`. -/
def kstrdup (h : Heap) : Ptr × Heap := kmalloc h

/-- Modelled from the spec: `wchan_create`, whose code is not among the
sources: a fresh wait channel, or `NULL`. -/
def wchan_create (h : Heap) : Ptr × Heap := kmalloc h

/-- Modelled from the spec: `kfree`, whose code is not among the
sources. -/
def kfree (p : Ptr) (h : Heap) : Heap := h.emit [.free p]

/-- The C function `sem_create`. -/
def sem_create (initial_count : Nat) (h : Heap) : Option Semaphore × Heap :=
  let a := kmalloc h
  if a.1 = 0 then (none, a.2) else
  let b := kstrdup a.2
  let hb := b.2.emit [.access a.1, .access a.1]
  if b.1 = 0 then (none, kfree a.1 hb) else
  let c := wchan_create (hb.emit [.access a.1])
  let hc := c.2.emit [.access a.1, .access a.1]
  if c.1 = 0 then
    (none, kfree a.1 (kfree b.1 (hc.emit [.access a.1])))
  else
    (some { sem_addr := a.1, sem_name := b.1,
            sem_wchan := { wc_addr := c.1, wc_threads := [] },
            sem_count := initial_count % UINT_MOD },
     hc.emit [.spinlock_init a.1, .access a.1])

/-- The C function `lock_create`.  `uninit` is what the fresh memory holds
where `lk_currthread` lies: the function does not initialise that field.
After a failed `wchan_create` the C code sets `lock = NULL` and then falls
through to the initialisation of the fields, which here goes through the
local variable `lock` as it does there. -/
def lock_create (uninit : Option Tid) (h : Heap) : Option Lock × Heap :=
  let a := kmalloc h
  if a.1 = 0 then (none, a.2) else
  let b := kstrdup a.2
  let hb := b.2.emit [.access a.1, .access a.1]
  if b.1 = 0 then (none, kfree a.1 hb) else
  let c := wchan_create (hb.emit [.access a.1])
  let hc := c.2.emit [.access a.1, .access a.1]
  let lock : Ptr := if c.1 = 0 then 0 else a.1
  let hd := if c.1 = 0 then kfree a.1 (kfree b.1 (hc.emit [.access a.1])) else hc
  let he := hd.emit [.spinlock_init lock, .access lock, .access lock]
  if lock = 0 then (none, he) else
    (some { lk_addr := lock, lk_name := b.1,
            lk_wchan := { wc_addr := c.1, wc_threads := [] },
            lk_currthread := uninit, lk_isheld := false, lk_count := 0 },
     he)

/-- The C function `cv_create`. -/
def cv_create (h : Heap) : Option Cv × Heap :=
  let a := kmalloc h
  if a.1 = 0 then (none, a.2) else
  let b := kstrdup a.2
  let hb := b.2.emit [.access a.1, .access a.1]
  if b.1 = 0 then (none, kfree a.1 hb) else
  let c := wchan_create (hb.emit [.access a.1])
  let hc := c.2.emit [.access a.1, .access a.1]
  if c.1 = 0 then
    (none, kfree a.1 (kfree b.1 (hc.emit [.access a.1])))
  else
    (some { cv_addr := a.1, cv_name := b.1,
            cv_wchan := { wc_addr := c.1, wc_threads := [] } },
     hc.emit [.spinlock_init a.1])

/-! ## Destruction -/

/-- Modelled from the spec: `wchan_destroy`, whose code is not among the
sources: it fails loudly when a thread sleeps on the channel and frees the
channel otherwise. -/
def wchan_destroy (wc : Wchan) : Res Wchan :=
  if wc.wc_threads ≠ [] then .panic wc [] else .ret wc [.free wc.wc_addr]

/-- The C function `sem_destroy` on a non-null semaphore. -/
def sem_destroy (sem : Semaphore) : Res Semaphore :=
  ((wchan_destroy sem.sem_wchan).lift (fun w => { sem with sem_wchan := w })
      [.spinlock_cleanup sem.sem_addr]).seq
    fun s1 => .ret s1 [.free s1.sem_name, .free s1.sem_addr]

/-- The C function `lock_destroy` on a non-null lock. -/
def lock_destroy (lock : Lock) : Res Lock :=
  if lock.lk_isheld != false then
    .panic lock []
  else
    ((wchan_destroy lock.lk_wchan).lift (fun w => { lock with lk_wchan := w })
        [.spinlock_cleanup lock.lk_addr]).seq
      fun l1 => .ret l1 [.free l1.lk_name, .free l1.lk_addr]

/-- The C function `cv_destroy` on a non-null cv. -/
def cv_destroy (cv : Cv) : Res Cv :=
  ((wchan_destroy cv.cv_wchan).lift (fun w => { cv with cv_wchan := w }) []).seq
    fun c1 => .ret c1 [.spinlock_cleanup c1.cv_addr, .free c1.cv_name, .free c1.cv_addr]

/-! ## Reader-writer lock -/

/-- The fields of `struct rwlock`, with `rwlock_sleep` the lock that
`synch.c` creates with `lock_create` and passes to `lock_acquire`. -/
structure RwLock where
  rwlock_addr : Ptr
  rwlock_name : Ptr
  rwlock_rcv : Cv
  rwlock_wcv : Cv
  rwlock_sleep : Lock
  rwlock_rin : Bool
  rwlock_win : Bool
  rwlock_rc : Nat
  rwlock_rrc : Nat
  rwlock_wrc : Nat
  deriving DecidableEq, Repr

/-- The C function `rwlock_create`; `uninit` is passed on to
`lock_create`. -/
def rwlock_create (uninit : Option Tid) (h : Heap) : Option RwLock × Heap :=
  let a := kmalloc h
  if a.1 = 0 then (none, a.2) else
  let b := kstrdup a.2
  let hb := b.2.emit [.access a.1, .access a.1]
  if b.1 = 0 then (none, kfree a.1 hb) else
  let c := cv_create hb
  let hc := c.2.emit [.access a.1, .access a.1]
  match c.1 with
  | none => (none, kfree a.1 (kfree b.1 (hc.emit [.access a.1])))
  | some rcv =>
    let d := cv_create hc
    let hd := d.2.emit [.access a.1, .access a.1]
    match d.1 with
    | none =>
      (none, kfree a.1 (kfree b.1
        ((hd.emit ([.access a.1] ++ (cv_destroy rcv).log)).emit [.access a.1])))
    | some wcv =>
      let e := lock_create uninit hd
      let he := e.2.emit [.access a.1, .access a.1]
      match e.1 with
      | none =>
        (none, kfree a.1 (kfree b.1
          ((he.emit ([.access a.1] ++ (cv_destroy wcv).log ++
            [.access a.1] ++ (cv_destroy rcv).log)).emit [.access a.1])))
      | some gate =>
        (some { rwlock_addr := a.1, rwlock_name := b.1, rwlock_rcv := rcv,
                rwlock_wcv := wcv, rwlock_sleep := gate,
                rwlock_rin := false, rwlock_win := false,
                rwlock_rc := 0, rwlock_rrc := 0, rwlock_wrc := 0 },
         he.emit [.access a.1, .access a.1, .access a.1, .access a.1, .access a.1])

/-- Write back the gate lock. -/
def RwLock.putGate (rw : RwLock) (g : Lock) : RwLock :=
  { rw with rwlock_sleep := g }

/-- Write back the reader cv and the gate lock after a cv call. -/
def RwLock.putR (rw : RwLock) (p : Cv × Option Lock) : RwLock :=
  { rw with rwlock_rcv := p.1, rwlock_sleep := p.2.getD rw.rwlock_sleep }

/-- Write back the writer cv and the gate lock after a cv call. -/
def RwLock.putW (rw : RwLock) (p : Cv × Option Lock) : RwLock :=
  { rw with rwlock_wcv := p.1, rwlock_sleep := p.2.getD rw.rwlock_sleep }

/-- The C function `rwlock_destroy` on a non-null rwlock. -/
def rwlock_destroy (rw : RwLock) : Res RwLock :=
  if rw.rwlock_rin != false then .panic rw []
  else if rw.rwlock_win != false then .panic rw []
  else if rw.rwlock_wrc != 0 then .panic rw []
  else if rw.rwlock_rc != 0 then .panic rw []
  else
    ((((cv_destroy rw.rwlock_rcv).lift (fun c => { rw with rwlock_rcv := c }) []).seq
      fun r1 => (cv_destroy r1.rwlock_wcv).lift (fun c => { r1 with rwlock_wcv := c }) []).seq
      fun r2 => (lock_destroy r2.rwlock_sleep).lift r2.putGate [.free r2.rwlock_name]).seq
      fun r3 => .ret r3 [.free r3.rwlock_addr]

/-- The loop of `rwlock_acquire_read` and what follows it, run holding the
gate lock `rwlock_sleep`. -/
def rwlock_acquire_read_loop (rw : RwLock) (curthread : Tid) (pick : Nat) : Res RwLock :=
  if rw.rwlock_win == true || rw.rwlock_wrc > 0 then
    (cv_wait rw.rwlock_rcv (some rw.rwlock_sleep) curthread pick).lift rw.putR []
  else
    let rw1 := { rw with rwlock_rrc := udec rw.rwlock_rrc,
                         rwlock_rin := true,
                         rwlock_rc := uinc rw.rwlock_rc }
    (lock_release rw1.rwlock_sleep curthread pick).lift rw1.putGate []

/-- The C function `rwlock_acquire_read`, up to its first sleep or its
return; `pick` chooses the sleeper woken on the gate's wait channel. -/
def rwlock_acquire_read (rw : RwLock) (curthread : Tid) (in_interrupt : Bool)
    (pick : Nat) : Res RwLock :=
  ((lock_acquire rw.rwlock_sleep curthread in_interrupt).lift rw.putGate []).seq
    fun rw1 =>
      rwlock_acquire_read_loop { rw1 with rwlock_rrc := uinc rw1.rwlock_rrc } curthread pick

/-- The C function `rwlock_acquire_read` from the wake-up inside `cv_wait`
to the next sleep or the return. -/
def rwlock_acquire_read_resume (rw : RwLock) (curthread : Tid) (in_interrupt : Bool)
    (pick : Nat) : Res RwLock :=
  ((cv_wait_resume rw.rwlock_rcv rw.rwlock_sleep curthread in_interrupt).lift rw.putR []).seq
    fun rw1 => rwlock_acquire_read_loop rw1 curthread pick

/-- The C function `rwlock_release_read`; `pickc` chooses the sleeper woken
on a cv, `pick` the one woken on the gate's wait channel. -/
def rwlock_release_read (rw : RwLock) (curthread : Tid) (in_interrupt : Bool)
    (pickc pick : Nat) : Res RwLock :=
  if rw.rwlock_rin != true then
    .panic rw []
  else
    (((lock_acquire rw.rwlock_sleep curthread in_interrupt).lift rw.putGate []).seq
      fun rw1 =>
        let rw2 := { rw1 with rwlock_rc := udec rw1.rwlock_rc, rwlock_rin := false }
        if rw2.rwlock_rc == 0 then
          if rw2.rwlock_wrc > 0 then
            (cv_signal rw2.rwlock_wcv (some rw2.rwlock_sleep) curthread pickc).lift rw2.putW []
          else
            (cv_broadcast rw2.rwlock_rcv (some rw2.rwlock_sleep) curthread).lift rw2.putR []
        else
          .ret rw2 []).seq
      fun rw3 => (lock_release rw3.rwlock_sleep curthread pick).lift rw3.putGate []

/-- The loop of `rwlock_acquire_write` and what follows it, run holding the
gate lock.  The statement `rwlock->rwlock_win == true;` after the loop is a
comparison whose value is discarded. -/
def rwlock_acquire_write_loop (rw : RwLock) (curthread : Tid) (pick : Nat) : Res RwLock :=
  if rw.rwlock_win == true || rw.rwlock_rc > 0 then
    (cv_wait rw.rwlock_wcv (some rw.rwlock_sleep) curthread pick).lift rw.putW []
  else
    let rw1 := { rw with rwlock_wrc := udec rw.rwlock_wrc }
    let _discarded : Bool := rw1.rwlock_win == true
    (lock_release rw1.rwlock_sleep curthread pick).lift rw1.putGate []

/-- The C function `rwlock_acquire_write`, up to its first sleep or its
return. -/
def rwlock_acquire_write (rw : RwLock) (curthread : Tid) (in_interrupt : Bool)
    (pick : Nat) : Res RwLock :=
  ((lock_acquire rw.rwlock_sleep curthread in_interrupt).lift rw.putGate []).seq
    fun rw1 =>
      rwlock_acquire_write_loop { rw1 with rwlock_wrc := uinc rw1.rwlock_wrc } curthread pick

/-- The C function `rwlock_acquire_write` from the wake-up inside `cv_wait`
to the next sleep or the return. -/
def rwlock_acquire_write_resume (rw : RwLock) (curthread : Tid) (in_interrupt : Bool)
    (pick : Nat) : Res RwLock :=
  ((cv_wait_resume rw.rwlock_wcv rw.rwlock_sleep curthread in_interrupt).lift rw.putW []).seq
    fun rw1 => rwlock_acquire_write_loop rw1 curthread pick

/-- The C function `rwlock_release_write`. -/
def rwlock_release_write (rw : RwLock) (curthread : Tid) (in_interrupt : Bool)
    (pickc pick : Nat) : Res RwLock :=
  if rw.rwlock_win != true then
    .panic rw []
  else
    (((lock_acquire rw.rwlock_sleep curthread in_interrupt).lift rw.putGate []).seq
      fun rw1 =>
        let rw2 := { rw1 with rwlock_win := false }
        if rw2.rwlock_rrc > 0 then
          (cv_broadcast rw2.rwlock_rcv (some rw2.rwlock_sleep) curthread).lift rw2.putR []
        else
          (cv_signal rw2.rwlock_wcv (some rw2.rwlock_sleep) curthread pickc).lift rw2.putW []).seq
      fun rw3 => (lock_release rw3.rwlock_sleep curthread pick).lift rw3.putGate []

/-! ## Threads running the reader-writer lock

Each step is one thread running one part of an rwlock function, from
taking the gate lock to giving it up (in `lock_release` or in `cv_wait`).
-/

/-- Why a run stops: a `KASSERT` failed, the thread named by the event
cannot take that step now, or the gate lock is not free at the start of
the step. -/
inductive Halt where
  | panic
  | disabled
  | gate_busy
  deriving DecidableEq, Repr

/-- A heap on which every allocation succeeds. -/
def Heap.plenty : Heap := { oracle := fun _ => true, reqs := 0, log := [] }

/-- The rwlock and the threads using it.  `rready` and `wready` are the
threads woken from the reader and the writer cv that have not resumed yet.
`writers` and `readers` are observers, not fields of the C struct: the
threads that have returned from `rwlock_acquire_write` (`_read`) and have
not called `rwlock_release_write` (`_read`) since. -/
structure RwSys where
  rw : RwLock
  rready : List Tid
  wready : List Tid
  writers : List Tid
  readers : List Tid
  deriving DecidableEq, Repr

/-- The system right after `rwlock_create` returned `rw`. -/
def RwSys.init (rw : RwLock) : RwSys :=
  { rw := rw, rready := [], wready := [], writers := [], readers := [] }

/-- A thread that is not suspended inside an rwlock function. -/
def RwSys.running (s : RwSys) (t : Tid) : Bool :=
  !(s.rw.rwlock_rcv.cv_wchan.wc_threads.contains t
    || s.rw.rwlock_wcv.cv_wchan.wc_threads.contains t
    || s.rw.rwlock_sleep.lk_wchan.wc_threads.contains t
    || s.rready.contains t || s.wready.contains t)

/-- The steps of the threads. -/
inductive RwEv where
  | acquire_read (t : Tid) (in_interrupt : Bool) (pick : Nat)
  | resume_read (t : Tid) (in_interrupt : Bool) (pick : Nat)
  | release_read (t : Tid) (in_interrupt : Bool) (pickc pick : Nat)
  | acquire_write (t : Tid) (in_interrupt : Bool) (pick : Nat)
  | resume_write (t : Tid) (in_interrupt : Bool) (pick : Nat)
  | release_write (t : Tid) (in_interrupt : Bool) (pickc pick : Nat)
  deriving DecidableEq, Repr

/-- Take over the outcome of a part: the new rwlock, and the threads its
wake-ups made runnable. -/
def RwSys.absorb (s : RwSys) (rw1 : RwLock) (log : List Eff) : RwSys :=
  { s with rw := rw1,
           rready := s.rready ++ wokenOn s.rw.rwlock_rcv.cv_wchan.wc_addr log,
           wready := s.wready ++ wokenOn s.rw.rwlock_wcv.cv_wchan.wc_addr log }

/-- The outcome of a part, as a step of the system; `onRet` updates the
observers when the function returns. -/
def RwSys.settle (s : RwSys) (r : Res RwLock) (onRet : RwSys → RwSys) :
    Except Halt RwSys :=
  match r with
  | .ret rw1 log => .ok (onRet (s.absorb rw1 log))
  | .blocked _ rw1 log => .ok (s.absorb rw1 log)
  | .panic _ _ => .error .panic

/-- One step of the system. -/
def RwSys.step (s : RwSys) (e : RwEv) : Except Halt RwSys :=
  if s.rw.rwlock_sleep.lk_isheld then .error .gate_busy else
  match e with
  | .acquire_read t intr pick =>
    if s.running t then
      s.settle (rwlock_acquire_read s.rw t intr pick)
        fun s1 => { s1 with readers := s1.readers ++ [t] }
    else .error .disabled
  | .resume_read t intr pick =>
    if s.rready.contains t then
      ({ s with rready := s.rready.filter (· != t) }).settle
        (rwlock_acquire_read_resume s.rw t intr pick)
        fun s1 => { s1 with readers := s1.readers ++ [t] }
    else .error .disabled
  | .release_read t intr pickc pick =>
    if s.running t then
      ({ s with readers := s.readers.erase t }).settle
        (rwlock_release_read s.rw t intr pickc pick) id
    else .error .disabled
  | .acquire_write t intr pick =>
    if s.running t then
      s.settle (rwlock_acquire_write s.rw t intr pick)
        fun s1 => { s1 with writers := s1.writers ++ [t] }
    else .error .disabled
  | .resume_write t intr pick =>
    if s.wready.contains t then
      ({ s with wready := s.wready.filter (· != t) }).settle
        (rwlock_acquire_write_resume s.rw t intr pick)
        fun s1 => { s1 with writers := s1.writers ++ [t] }
    else .error .disabled
  | .release_write t intr pickc pick =>
    if s.running t then
      ({ s with writers := s.writers.erase t }).settle
        (rwlock_release_write s.rw t intr pickc pick) id
    else .error .disabled

/-- Run the steps of an interleaving in order; the run stops at the first
step that cannot be taken. -/
def RwSys.run (s : RwSys) : List RwEv → Except Halt RwSys
  | [] => .ok s
  | e :: es =>
    match s.step e with
    | .ok s1 => RwSys.run s1 es
    | .error h => .error h

/-- The rwlock that `rwlock_create` returns when every allocation
succeeds. -/
def rwlock0 (uninit : Option Tid) : Option RwLock :=
  (rwlock_create uninit Heap.plenty).1

/-! ## Threads running a lock and a condition variable

Each step is one thread running one part of a lock or cv function: a region
guarded by a spinlock, from `spinlock_acquire` (or from the wake-up inside
`wchan_sleep`) to `spinlock_release` or to the next `wchan_sleep`.
-/

/-- A lock, a cv used with it, and the threads using them.  `lkready` and
`cvready` are the threads woken from the lock's and the cv's wait channel
that have not resumed yet.  `holders` is an observer, not a field of a C
struct: the threads that have returned from `lock_acquire` or `cv_wait` and
have not called `lock_release` or `cv_wait` since. -/
structure Sys where
  lock : Lock
  cv : Cv
  lkready : List Tid
  cvready : List Tid
  holders : List Tid
  deriving DecidableEq, Repr

/-- The system right after the lock and the cv were created. -/
def Sys.init (lock : Lock) (cv : Cv) : Sys :=
  { lock := lock, cv := cv, lkready := [], cvready := [], holders := [] }

/-- A thread that is not suspended inside a lock or cv function. -/
def Sys.running (s : Sys) (t : Tid) : Bool :=
  !(s.lock.lk_wchan.wc_threads.contains t || s.lkready.contains t
    || s.cv.cv_wchan.wc_threads.contains t || s.cvready.contains t)

/-- The steps of the threads. -/
inductive Ev where
  | lock_acquire (t : Tid) (in_interrupt : Bool)
  | lock_acquire_resume (t : Tid)
  | lock_release (t : Tid) (pick : Nat)
  | cv_wait (t : Tid) (pick : Nat)
  | cv_wait_resume (t : Tid) (in_interrupt : Bool)
  | cv_signal (t : Tid) (pick : Nat)
  | cv_broadcast (t : Tid)
  deriving DecidableEq, Repr

/-- Take over the outcome of a part: the new cv and lock, and the threads
its wake-ups made runnable. -/
def Sys.absorb (s : Sys) (p : Cv × Option Lock) (log : List Eff) : Sys :=
  { s with cv := p.1,
           lock := p.2.getD s.lock,
           lkready := s.lkready ++ wokenOn s.lock.lk_wchan.wc_addr log,
           cvready := s.cvready ++ wokenOn s.cv.cv_wchan.wc_addr log }

/-- The outcome of a part, as a step of the system; `onRet` updates the
observer when the function returns. -/
def Sys.settle (s : Sys) (r : Res (Cv × Option Lock)) (onRet : Sys → Sys) :
    Except Halt Sys :=
  match r with
  | .ret p log => .ok (onRet (s.absorb p log))
  | .blocked _ p log => .ok (s.absorb p log)
  | .panic _ _ => .error .panic

/-- One step of the system. -/
def Sys.step (s : Sys) (e : Ev) : Except Halt Sys :=
  match e with
  | .lock_acquire t intr =>
    if s.running t then
      s.settle ((lock_acquire s.lock t intr).lift (fun l => (s.cv, some l)) [])
        fun s1 => { s1 with holders := s1.holders ++ [t] }
    else .error .disabled
  | .lock_acquire_resume t =>
    if s.lkready.contains t then
      ({ s with lkready := s.lkready.filter (· != t) }).settle
        ((lock_acquire_resume s.lock t).lift (fun l => (s.cv, some l)) [])
        fun s1 => { s1 with holders := s1.holders ++ [t] }
    else .error .disabled
  | .lock_release t pick =>
    if s.running t then
      ({ s with holders := s.holders.erase t }).settle
        ((lock_release s.lock t pick).lift (fun l => (s.cv, some l)) []) id
    else .error .disabled
  | .cv_wait t pick =>
    if s.running t then
      ({ s with holders := s.holders.erase t }).settle
        (cv_wait s.cv (some s.lock) t pick) id
    else .error .disabled
  | .cv_wait_resume t intr =>
    if s.cvready.contains t then
      ({ s with cvready := s.cvready.filter (· != t) }).settle
        (cv_wait_resume s.cv s.lock t intr)
        fun s1 => { s1 with holders := s1.holders ++ [t] }
    else .error .disabled
  | .cv_signal t pick =>
    if s.running t then s.settle (cv_signal s.cv (some s.lock) t pick) id
    else .error .disabled
  | .cv_broadcast t =>
    if s.running t then s.settle (cv_broadcast s.cv (some s.lock) t) id
    else .error .disabled

/-- Run the steps of an interleaving in order; the run stops at the first
step that cannot be taken. -/
def Sys.run (s : Sys) : List Ev → Except Halt Sys
  | [] => .ok s
  | e :: es =>
    match s.step e with
    | .ok s1 => Sys.run s1 es
    | .error h => .error h

/-- What holds of the lock and its observer between any two steps: a held
lock has an owner, and that owner is the one thread inside; a free lock has
no thread inside. -/
def Sys.LockInv (s : Sys) : Prop :=
  (s.lock.lk_isheld = true → ∃ t, s.lock.lk_currthread = some t ∧ s.holders = [t]) ∧
  (s.lock.lk_isheld = false → s.holders = [])

/-! ## Threads running a semaphore

Each step is one thread running one part of `P` or `V`: a region guarded by
`sem_lock`.
-/

/-- A semaphore and the threads using it.  `ready` are the threads woken
from its wait channel that have not resumed yet.  `vcalls` and `pdone` are
observers, not fields of the C struct: the number of calls of `V` and the
number of calls of `P` that have returned. -/
structure SemSys where
  sem : Semaphore
  ready : List Tid
  vcalls : Nat
  pdone : Nat
  deriving DecidableEq, Repr

/-- The system right after `sem_create` returned `sem`. -/
def SemSys.init (sem : Semaphore) : SemSys :=
  { sem := sem, ready := [], vcalls := 0, pdone := 0 }

/-- A thread that is not suspended inside `P`. -/
def SemSys.running (s : SemSys) (t : Tid) : Bool :=
  !(s.sem.sem_wchan.wc_threads.contains t || s.ready.contains t)

/-- The steps of the threads. -/
inductive SemEv where
  | P (t : Tid) (in_interrupt : Bool)
  | P_resume (t : Tid)
  | V (t : Tid) (pick : Nat)
  deriving DecidableEq, Repr

/-- Whether the step is a call of `V`. -/
def SemEv.isV : SemEv → Bool
  | .V _ _ => true
  | _ => false

/-- The outcome of a part of `P` or `V`, as a step of the system; `onRet`
updates the observers when the function returns. -/
def SemSys.settle (s : SemSys) (r : Res Semaphore) (onRet : SemSys → SemSys) :
    Except Halt SemSys :=
  match r with
  | .ret sem1 log =>
    .ok (onRet { s with sem := sem1,
                        ready := s.ready ++ wokenOn s.sem.sem_wchan.wc_addr log })
  | .blocked _ sem1 log =>
    .ok { s with sem := sem1, ready := s.ready ++ wokenOn s.sem.sem_wchan.wc_addr log }
  | .panic _ _ => .error .panic

/-- One step of the system. -/
def SemSys.step (s : SemSys) (e : SemEv) : Except Halt SemSys :=
  match e with
  | .P t intr =>
    if s.running t then
      s.settle (P s.sem t intr) fun s1 => { s1 with pdone := s1.pdone + 1 }
    else .error .disabled
  | .P_resume t =>
    if s.ready.contains t then
      ({ s with ready := s.ready.filter (· != t) }).settle (P_resume s.sem t)
        fun s1 => { s1 with pdone := s1.pdone + 1 }
    else .error .disabled
  | .V t pick =>
    if s.running t then
      s.settle (V s.sem pick) fun s1 => { s1 with vcalls := s1.vcalls + 1 }
    else .error .disabled

/-- Run the steps of an interleaving in order; the run stops at the first
step that cannot be taken. -/
def SemSys.run (s : SemSys) : List SemEv → Except Halt SemSys
  | [] => .ok s
  | e :: es =>
    match s.step e with
    | .ok s1 => SemSys.run s1 es
    | .error h => .error h

/-- What holds of the semaphore and its observers between any two steps,
for the initial count `n` and the calls of `V` counted as `v`. -/
def SemSys.Inv (n : Nat) (s : SemSys) : Prop :=
  s.sem.sem_count + s.pdone = n + s.vcalls ∧ s.sem.sem_count < UINT_MOD

/-- What holds of the threads waiting on the cv between any two steps: the
lock and the cv are distinct objects with distinct wait channels, no thread
is twice on the cv's channel, a woken waiter is no longer on it, and a
thread that is on it or was woken from it and has not resumed does not hold
the lock and is not waiting for the lock either. -/
def Sys.WaitInv (s : Sys) : Prop :=
  s.lock.lk_addr ≠ s.cv.cv_addr
    ∧ s.lock.lk_wchan.wc_addr ≠ s.cv.cv_wchan.wc_addr
    ∧ s.cv.cv_wchan.wc_threads.Nodup
    ∧ (∀ t, t ∈ s.cvready → t ∉ s.cv.cv_wchan.wc_threads)
    ∧ (∀ t, t ∈ s.cv.cv_wchan.wc_threads ∨ t ∈ s.cvready →
        lock_do_i_hold s.lock t = false ∧ t ∉ s.lock.lk_wchan.wc_threads ∧ t ∉ s.lkready)

/-- Whether the calling thread holds the lock passed to a cv function; a
`NULL` lock is held by nobody. -/
def caller_holds (lock : Option Lock) (curthread : Tid) : Bool :=
  match lock with
  | none => false
  | some l => lock_do_i_hold l curthread

/-! ## Reading the record of allocator calls -/

/-- A heap with nothing allocated on which the request number `k` (counted
from 0) fails and every other request succeeds. -/
def Heap.failing (k : Nat) : Heap := { oracle := fun n => n != k, reqs := 0, log := [] }

/-- The pointer through which a call reaches an object, if it does. -/
def Eff.target : Eff → Option Ptr
  | .access p => some p
  | .free p => some p
  | .spinlock_init p => some p
  | .spinlock_cleanup p => some p
  | _ => none

/-- Whether no call of the record reaches an object through `NULL` or
through a pointer freed earlier (`freed` holds the pointers freed so far): a
second `kfree` of a pointer counts as such a call. -/
def memSafeFrom (freed : List Ptr) : List Eff → Bool
  | [] => true
  | e :: es =>
    (match e.target with
      | none => true
      | some p => p != 0 && !freed.contains p)
    && memSafeFrom (match e with
      | .free p => p :: freed
      | _ => freed) es

/-- Whether no call of the record reaches an object through `NULL` or
through a freed pointer. -/
def memSafe (log : List Eff) : Bool := memSafeFrom [] log

/-- The pointers allocated, in order. -/
def allocated : List Eff → List Ptr
  | [] => []
  | .alloc p :: es => p :: allocated es
  | _ :: es => allocated es

/-- The pointers freed, in order. -/
def freed : List Eff → List Ptr
  | [] => []
  | .free p :: es => p :: freed es
  | _ :: es => freed es

/-- Whether everything allocated was freed, once, in reverse order of
allocation. -/
def rolledBack (log : List Eff) : Bool := freed log == (allocated log).reverse

/-- Whether a create function failed cleanly: it returned `NULL`, reached
nothing through a `NULL` or freed pointer, and freed what it had allocated,
once, in reverse order. -/
def cleanFailure {α : Type} (r : Option α × Heap) : Bool :=
  r.1.isNone && memSafe r.2.log && rolledBack r.2.log

/-! # Theorems -/

/-! ## Arithmetic of `unsigned` -/

theorem udec_eq_mod (n : Nat) (h : n < UINT_MOD) :
    udec n = (n + (UINT_MOD - 1)) % UINT_MOD := by
  unfold udec UINT_MOD at *
  split <;> omega

theorem udec_uinc (n : Nat) (h : n < UINT_MOD) : udec (uinc n) = n := by
  unfold udec uinc UINT_MOD at *
  split <;> omega

theorem udec_succ (n : Nat) (h0 : n ≠ 0) : udec n + 1 = n := by
  unfold udec
  rw [if_neg h0]
  omega

theorem uinc_lt (n : Nat) : uinc n < UINT_MOD := by
  unfold uinc UINT_MOD
  omega

theorem udec_lt (n : Nat) (h : n < UINT_MOD) : udec n < UINT_MOD := by
  unfold udec UINT_MOD at *
  split <;> omega

/-! ## Reader-writer lock: the writer-in flag -/

/-- C1, evaluated on the code: from the rwlock that `rwlock_create`
returns, two threads call `rwlock_acquire_write` one after the other and
both return, neither having released: two writers are in.  And after one
writer has returned a reader is admitted as well: a writer is in while
`rwlock_rc` is 1. -/
theorem rwlock_two_writers_in :
    ∃ rw s1 s2, rwlock0 none = some rw
      ∧ (RwSys.init rw).run [.acquire_write 0 false 0, .acquire_write 1 false 0] = .ok s1
      ∧ s1.writers = [0, 1]
      ∧ (RwSys.init rw).run [.acquire_write 0 false 0, .acquire_read 1 false 0] = .ok s2
      ∧ s2.writers = [0] ∧ s2.rw.rwlock_rc = 1 ∧ s2.rw.rwlock_win = false := by
  refine ⟨_, _, _, rfl, rfl, ?_, rfl, ?_, ?_, ?_⟩ <;> rfl

/-- C2, evaluated on the code: whenever the wait loop of
`rwlock_acquire_write` exits at once (gate free, `rwlock_win` false,
`rwlock_rc` zero), the function returns with `rwlock_win` still false; the
three counters are as before the call. -/
theorem rwlock_acquire_write_win_stays_false (rw : RwLock) (t : Tid) (pick : Nat)
    (hgate : rw.rwlock_sleep.lk_isheld = false)
    (hwin : rw.rwlock_win = false) (hrc : rw.rwlock_rc = 0)
    (hwrc : rw.rwlock_wrc < UINT_MOD) :
    ∃ rw1 log, rwlock_acquire_write rw t false pick = .ret rw1 log
      ∧ rw1.rwlock_win = false
      ∧ rw1.rwlock_wrc = rw.rwlock_wrc
      ∧ rw1.rwlock_rc = rw.rwlock_rc ∧ rw1.rwlock_rrc = rw.rwlock_rrc := by
  simp [rwlock_acquire_write, rwlock_acquire_write_loop, lock_acquire, lock_acquire_loop,
    lock_release, lock_do_i_hold, Res.lift, Res.seq, RwLock.putGate, hgate, hwin, hrc,
    udec_uinc _ hwrc]

theorem rwlock_acquire_write_win_stays_false_witness :
    ∃ rw, rwlock0 none = some rw ∧
      ∃ rw1 log, rwlock_acquire_write rw 0 false 0 = .ret rw1 log
        ∧ rw1.rwlock_win = false
        ∧ rw1.rwlock_wrc = rw.rwlock_wrc
        ∧ rw1.rwlock_rc = rw.rwlock_rc ∧ rw1.rwlock_rrc = rw.rwlock_rrc :=
  ⟨_, rfl, rwlock_acquire_write_win_stays_false _ 0 0 rfl rfl rfl
    (by show (0 : Nat) < UINT_MOD; unfold UINT_MOD; omega)⟩

/-! ## Lock: mutual exclusion -/

theorem Sys.step_lockInv (s s1 : Sys) (e : Ev) (h : s.LockInv) (hs : s.step e = .ok s1) :
    s1.LockInv := by
  obtain ⟨h1, h2⟩ := h
  rcases e with ⟨t, intr⟩ | ⟨t⟩ | ⟨t, pick⟩ | ⟨t, pick⟩ | ⟨t, intr⟩ | ⟨t, pick⟩ | ⟨t⟩
  all_goals (try cases intr)
  all_goals
    cases hheld : s.lock.lk_isheld <;> by_cases hc : s.lock.lk_currthread = some t <;>
    simp [Sys.step, Sys.settle, Sys.absorb, lock_acquire, lock_acquire_loop, lock_acquire_resume,
      lock_release, cv_wait, cv_wait_resume, cv_signal, cv_broadcast, lock_do_i_hold, Res.lift,
      hheld, hc] at hs
  all_goals (split at hs <;> simp at hs)
  all_goals (subst hs)
  all_goals simp_all [Sys.LockInv]

theorem Sys.run_lockInv (evs : List Ev) (s s1 : Sys) (h : s.LockInv)
    (hr : s.run evs = .ok s1) : s1.LockInv := by
  induction evs generalizing s with
  | nil =>
    simp [Sys.run] at hr
    subst hr
    exact h
  | cons e es ih =>
    simp only [Sys.run] at hr
    cases hstep : s.step e with
    | error x => simp [hstep] at hr
    | ok s2 =>
      simp only [hstep] at hr
      exact ih s2 (Sys.step_lockInv s s2 e h hstep) hr

theorem lock_create_some (uninit : Option Tid) (h : Heap) (lock : Lock)
    (hc : (lock_create uninit h).1 = some lock) :
    lock.lk_isheld = false ∧ lock.lk_count = 0 ∧ lock.lk_wchan.wc_threads = []
      ∧ lock.lk_currthread = uninit := by
  unfold lock_create at hc
  simp only at hc
  repeat' split at hc
  all_goals simp at hc
  all_goals (subst hc; simp)

/-- C3: from the lock that `lock_create` returns, after any interleaving of
steps of `lock_acquire`, `lock_release` (and of the cv functions used with
the lock) by any threads, each guarded region being one step: at most one
thread is inside (has returned from `lock_acquire` and not released),
`lock_do_i_hold` is true for a thread exactly when it is that thread, so
it is true for at most one thread, and a held lock has that thread as
`lk_currthread`. -/
theorem lock_mutual_exclusion (uninit : Option Tid) (h : Heap) (lock : Lock) (cv : Cv)
    (evs : List Ev) (s : Sys)
    (hc : (lock_create uninit h).1 = some lock)
    (hr : (Sys.init lock cv).run evs = .ok s) :
    s.holders.length ≤ 1
      ∧ (∀ t, lock_do_i_hold s.lock t = true ↔ s.holders = [t])
      ∧ (∀ t u, lock_do_i_hold s.lock t = true → lock_do_i_hold s.lock u = true → t = u)
      ∧ (s.lock.lk_isheld = true → ∃ t, s.lock.lk_currthread = some t ∧ s.holders = [t]) := by
  have h0 : (Sys.init lock cv).LockInv := by
    obtain ⟨hh, -, -, -⟩ := lock_create_some uninit h lock hc
    simp [Sys.LockInv, Sys.init, hh]
  obtain ⟨h1, h2⟩ := Sys.run_lockInv evs _ s h0 hr
  have key : ∀ t, lock_do_i_hold s.lock t = true ↔ s.holders = [t] := by
    intro t
    cases hheld : s.lock.lk_isheld
    · simp [lock_do_i_hold, hheld, h2 hheld]
    · obtain ⟨t0, hcur, hhold⟩ := h1 hheld
      simp [lock_do_i_hold, hheld, hcur, hhold]
  refine ⟨?_, key, ?_, h1⟩
  · cases hheld : s.lock.lk_isheld
    · simp [h2 hheld]
    · obtain ⟨t0, -, hhold⟩ := h1 hheld
      simp [hhold]
  · intro t u ht hu
    have a := (key t).1 ht
    have b := (key u).1 hu
    rw [a] at b
    simpa using b

theorem lock_mutual_exclusion_witness :
    ∃ lock cv s, (lock_create none Heap.plenty).1 = some lock
      ∧ (Sys.init lock cv).run
          [.lock_acquire 0 false, .lock_acquire 1 false, .lock_release 0 0,
           .lock_acquire_resume 1] = .ok s
      ∧ s.holders = [1]
      ∧ (s.holders.length ≤ 1
        ∧ (∀ t, lock_do_i_hold s.lock t = true ↔ s.holders = [t])
        ∧ (∀ t u, lock_do_i_hold s.lock t = true → lock_do_i_hold s.lock u = true → t = u)
        ∧ (s.lock.lk_isheld = true → ∃ t, s.lock.lk_currthread = some t ∧ s.holders = [t])) :=
  ⟨_, ⟨4, 5, ⟨6, []⟩⟩, _, rfl, rfl, rfl,
    lock_mutual_exclusion none Heap.plenty _ ⟨4, 5, ⟨6, []⟩⟩
      [.lock_acquire 0 false, .lock_acquire 1 false, .lock_release 0 0,
       .lock_acquire_resume 1] _ rfl rfl⟩

/-! ## Semaphore: the count -/

theorem SemSys.running_not_mem (s : SemSys) (t : Tid) (h : s.running t = true) :
    t ∉ s.sem.sem_wchan.wc_threads := by
  simp only [SemSys.running, Bool.not_eq_true', Bool.or_eq_false_iff] at h
  simpa using h.1

theorem SemSys.step_P (s s1 : SemSys) (t : Tid) (intr : Bool)
    (hs : s.step (.P t intr) = .ok s1) :
    (0 < s.sem.sem_count ∧ s1.sem.sem_count + 1 = s.sem.sem_count
        ∧ s1.pdone = s.pdone + 1 ∧ s1.vcalls = s.vcalls
        ∧ t ∉ s1.sem.sem_wchan.wc_threads)
      ∨ (s.sem.sem_count = 0 ∧ s1.sem.sem_count = s.sem.sem_count
        ∧ s1.pdone = s.pdone ∧ s1.vcalls = s.vcalls
        ∧ t ∈ s1.sem.sem_wchan.wc_threads) := by
  cases intr <;> by_cases h0 : s.sem.sem_count = 0 <;>
    simp [SemSys.step, SemSys.settle, P, P_loop, h0, wokenOn, wchan_sleep] at hs
  all_goals (split at hs <;> simp at hs)
  all_goals (subst hs)
  · simp [h0]
  · rename_i hrun
    simp only [udec_succ _ h0, true_and]
    exact Or.inl ⟨Nat.pos_of_ne_zero h0, SemSys.running_not_mem s t hrun⟩

theorem SemSys.step_P_resume (s s1 : SemSys) (t : Tid)
    (hs : s.step (.P_resume t) = .ok s1) :
    (0 < s.sem.sem_count ∧ s1.sem.sem_count + 1 = s.sem.sem_count
        ∧ s1.pdone = s.pdone + 1 ∧ s1.vcalls = s.vcalls)
      ∨ (s.sem.sem_count = 0 ∧ s1.sem.sem_count = s.sem.sem_count
        ∧ s1.pdone = s.pdone ∧ s1.vcalls = s.vcalls
        ∧ t ∈ s1.sem.sem_wchan.wc_threads) := by
  by_cases h0 : s.sem.sem_count = 0 <;>
    simp [SemSys.step, SemSys.settle, P_resume, P_loop, h0, wokenOn, wchan_sleep] at hs
  all_goals (split at hs <;> simp at hs)
  all_goals (subst hs)
  · simp [h0]
  · simp only [udec_succ _ h0, true_and]
    exact Or.inl ⟨Nat.pos_of_ne_zero h0, trivial⟩

theorem SemSys.step_V (s s1 : SemSys) (t : Tid) (pick : Nat)
    (hlt : s.sem.sem_count < UINT_MOD) (hs : s.step (.V t pick) = .ok s1) :
    s1.sem.sem_count = s.sem.sem_count + 1 ∧ s1.sem.sem_count < UINT_MOD
      ∧ s1.vcalls = s.vcalls + 1 ∧ s1.pdone = s.pdone := by
  by_cases h0 : uinc s.sem.sem_count = 0 <;>
    simp [SemSys.step, SemSys.settle, V, h0] at hs
  all_goals (split at hs <;> simp at hs)
  subst hs
  simp
  unfold uinc UINT_MOD at *
  omega


theorem SemSys.step_inv (n : Nat) (s s1 : SemSys) (e : SemEv) (h : SemSys.Inv n s)
    (hs : s.step e = .ok s1) :
    SemSys.Inv n s1 ∧ s1.vcalls = s.vcalls + (if e.isV then 1 else 0) := by
  obtain ⟨h1, h2⟩ := h
  unfold SemSys.Inv
  rcases e with ⟨t, intr⟩ | ⟨t⟩ | ⟨t, pick⟩
  · have := SemSys.step_P s s1 t intr hs
    simp [SemEv.isV]
    omega
  · have := SemSys.step_P_resume s s1 t hs
    simp [SemEv.isV]
    omega
  · have := SemSys.step_V s s1 t pick h2 hs
    simp [SemEv.isV]
    omega

theorem SemSys.run_inv (n : Nat) (evs : List SemEv) (s s1 : SemSys) (h : SemSys.Inv n s)
    (hr : s.run evs = .ok s1) :
    SemSys.Inv n s1 ∧ s1.vcalls = s.vcalls + (evs.filter SemEv.isV).length := by
  induction evs generalizing s with
  | nil =>
    simp [SemSys.run] at hr
    subst hr
    exact ⟨h, by simp⟩
  | cons e es ih =>
    simp only [SemSys.run] at hr
    cases hstep : s.step e with
    | error x => simp [hstep] at hr
    | ok s2 =>
      simp only [hstep] at hr
      obtain ⟨hi, hv⟩ := SemSys.step_inv n s s2 e h hstep
      obtain ⟨hi2, hv2⟩ := ih s2 hi hr
      refine ⟨hi2, ?_⟩
      rw [hv2, hv, List.filter_cons]
      cases e.isV
      · simp
      · simp
        omega

theorem sem_create_some (initial_count : Nat) (h : Heap) (sem : Semaphore)
    (hc : (sem_create initial_count h).1 = some sem) :
    sem.sem_count = initial_count % UINT_MOD ∧ sem.sem_wchan.wc_threads = [] := by
  unfold sem_create at hc
  simp only at hc
  repeat' split at hc
  all_goals simp at hc
  all_goals (subst hc; simp)

/-- C4: for the semaphore that `sem_create` returns for `initial_count`,
after any interleaving of steps of `P` and `V` in which no assertion fired:
`sem_count` is `initial_count` plus the number of calls of `V` minus the
number of calls of `P` that returned, that difference never goes below
zero and the count never wraps; the next step of `P` returns, with the
count one less, only when the count is above zero (and then it does
return), and otherwise puts the caller to sleep with the count unchanged;
the next `V` makes the count one more. -/
theorem semaphore_count (initial_count : Nat) (h : Heap) (sem : Semaphore)
    (evs : List SemEv) (s : SemSys)
    (hn : initial_count < UINT_MOD)
    (hc : (sem_create initial_count h).1 = some sem)
    (hr : (SemSys.init sem).run evs = .ok s) :
    s.pdone ≤ initial_count + s.vcalls
      ∧ s.sem.sem_count = initial_count + s.vcalls - s.pdone
      ∧ s.vcalls = (evs.filter SemEv.isV).length
      ∧ s.sem.sem_count < UINT_MOD
      ∧ (∀ t intr s1, s.step (.P t intr) = .ok s1 →
          (0 < s.sem.sem_count ∧ s1.sem.sem_count + 1 = s.sem.sem_count
              ∧ s1.pdone = s.pdone + 1 ∧ t ∉ s1.sem.sem_wchan.wc_threads)
            ∨ (s.sem.sem_count = 0 ∧ s1.sem.sem_count = s.sem.sem_count
              ∧ s1.pdone = s.pdone ∧ t ∈ s1.sem.sem_wchan.wc_threads))
      ∧ (∀ t s1, s.step (.P_resume t) = .ok s1 →
          (0 < s.sem.sem_count ∧ s1.sem.sem_count + 1 = s.sem.sem_count
              ∧ s1.pdone = s.pdone + 1)
            ∨ (s.sem.sem_count = 0 ∧ s1.sem.sem_count = s.sem.sem_count
              ∧ s1.pdone = s.pdone ∧ t ∈ s1.sem.sem_wchan.wc_threads))
      ∧ (∀ t, s.running t = true → 0 < s.sem.sem_count →
          ∃ s1, s.step (.P t false) = .ok s1 ∧ s1.pdone = s.pdone + 1)
      ∧ (∀ t pick s1, s.step (.V t pick) = .ok s1 →
          s1.sem.sem_count = s.sem.sem_count + 1 ∧ s1.vcalls = s.vcalls + 1) := by
  obtain ⟨hcount, hw⟩ := sem_create_some initial_count h sem hc
  have h0 : SemSys.Inv initial_count (SemSys.init sem) := by
    simp [SemSys.Inv, SemSys.init, hcount, Nat.mod_eq_of_lt hn, hn]
  obtain ⟨⟨h1, h2⟩, h3⟩ := SemSys.run_inv initial_count evs _ s h0 hr
  refine ⟨by omega, by omega, by simpa [SemSys.init] using h3, h2, ?_, ?_, ?_, ?_⟩
  · intro t intr s1 hs
    rcases SemSys.step_P s s1 t intr hs with a | a
    · exact Or.inl ⟨a.1, a.2.1, a.2.2.1, a.2.2.2.2⟩
    · exact Or.inr ⟨a.1, a.2.1, a.2.2.1, a.2.2.2.2⟩
  · intro t s1 hs
    rcases SemSys.step_P_resume s s1 t hs with a | a
    · exact Or.inl ⟨a.1, a.2.1, a.2.2.1⟩
    · exact Or.inr ⟨a.1, a.2.1, a.2.2.1, a.2.2.2.2⟩
  · intro t hrun hpos
    have hne : ¬ s.sem.sem_count = 0 := by omega
    simp [SemSys.step, SemSys.settle, P, P_loop, hrun, hne]
  · intro t pick s1 hs
    have a := SemSys.step_V s s1 t pick h2 hs
    exact ⟨a.1, a.2.2.1⟩

theorem semaphore_count_witness :
    ∃ sem s, (sem_create 0 Heap.plenty).1 = some sem
      ∧ (SemSys.init sem).run [.P 0 false, .V 1 0, .P_resume 0, .P 2 false] = .ok s
      ∧ s.sem.sem_count = 0 ∧ s.vcalls = 1 ∧ s.pdone = 1
      ∧ s.sem.sem_wchan.wc_threads = [2]
      ∧ s.sem.sem_count = 0 + s.vcalls - s.pdone :=
  ⟨_, _, rfl, rfl, rfl, rfl, rfl, rfl,
    (semaphore_count 0 Heap.plenty _ [.P 0 false, .V 1 0, .P_resume 0, .P 2 false] _
      (by decide) rfl rfl).2.1⟩

/-! ## Lock: the contract of `lock_release` -/

theorem lock_do_i_hold_iff (lock : Lock) (t : Tid) :
    lock_do_i_hold lock t = true ↔ (lock.lk_isheld = true ∧ lock.lk_currthread = some t) := by
  simp [lock_do_i_hold]

/-- C5: `lock_release` on a non-null lock fails its assertion exactly when
`lock_do_i_hold` is false for the caller, and `lock_do_i_hold` is true
exactly when `lk_isheld` is true and `lk_currthread` is the caller.  When
the assertion fails the lock is as before and nothing was issued.  When it
passes the function returns with `lk_isheld` false, `lk_currthread` `NULL`
and `lk_count` unchanged, having issued one `wchan_wakeone` on the lock's
wait channel, between taking and giving up `lk_lock`. -/
theorem lock_release_contract (lock : Lock) (t : Tid) (pick : Nat) :
    ((lock_release lock t pick).isPanic = true ↔ lock_do_i_hold lock t = false)
      ∧ (lock_do_i_hold lock t = true ↔
          (lock.lk_isheld = true ∧ lock.lk_currthread = some t))
      ∧ (lock_do_i_hold lock t = false → lock_release lock t pick = .panic lock [])
      ∧ (lock_do_i_hold lock t = true →
          ∃ lock1 woken,
            lock_release lock t pick =
              .ret lock1 [.spinlock_acquire lock.lk_addr,
                          .wchan_wakeone lock.lk_wchan.wc_addr woken,
                          .spinlock_release lock.lk_addr]
            ∧ lock1.lk_isheld = false ∧ lock1.lk_currthread = none
            ∧ lock1.lk_count = lock.lk_count
            ∧ lock1.lk_addr = lock.lk_addr ∧ lock1.lk_name = lock.lk_name
            ∧ (woken, lock1.lk_wchan) = wchan_wakeone lock.lk_wchan pick) := by
  refine ⟨?_, lock_do_i_hold_iff lock t, ?_, ?_⟩
  · cases h : lock_do_i_hold lock t <;> simp [lock_release, h, Res.isPanic]
  · intro h
    simp [lock_release, h]
  · intro h
    refine ⟨{ lock with lk_isheld := false, lk_currthread := none,
                         lk_wchan := (wchan_wakeone lock.lk_wchan pick).2 },
      (wchan_wakeone lock.lk_wchan pick).1, ?_, rfl, rfl, rfl, rfl, rfl, rfl⟩
    simp [lock_release, h]

theorem lock_release_contract_witness :
    lock_do_i_hold ⟨1, 2, ⟨3, [5, 6]⟩, some 4, true, 2⟩ 4 = true
      ∧ lock_release ⟨1, 2, ⟨3, [5, 6]⟩, some 4, true, 2⟩ 4 1 =
          .ret ⟨1, 2, ⟨3, [5]⟩, none, false, 2⟩
            [.spinlock_acquire 1, .wchan_wakeone 3 (some 6), .spinlock_release 1]
      ∧ lock_release ⟨1, 2, ⟨3, [5, 6]⟩, some 4, true, 2⟩ 7 1 =
          .panic ⟨1, 2, ⟨3, [5, 6]⟩, some 4, true, 2⟩ []
      ∧ ((lock_release ⟨1, 2, ⟨3, [5, 6]⟩, some 4, true, 2⟩ 7 1).isPanic = true ↔
          lock_do_i_hold ⟨1, 2, ⟨3, [5, 6]⟩, some 4, true, 2⟩ 7 = false) :=
  ⟨rfl, rfl,
    (lock_release_contract ⟨1, 2, ⟨3, [5, 6]⟩, some 4, true, 2⟩ 7 1).2.2.1 rfl,
    (lock_release_contract ⟨1, 2, ⟨3, [5, 6]⟩, some 4, true, 2⟩ 7 1).1⟩

/-! ## Wait channel: who is woken -/

theorem wchan_wakeone_addr (wc : Wchan) (pick : Nat) :
    (wchan_wakeone wc pick).2.wc_addr = wc.wc_addr := by
  unfold wchan_wakeone
  split <;> rfl

theorem wchan_wakeone_woken_mem (wc : Wchan) (pick : Nat) (w : Tid)
    (h : (wchan_wakeone wc pick).1 = some w) : w ∈ wc.wc_threads := by
  unfold wchan_wakeone at h
  split at h
  · simp at h
  · rename_i t ts heq
    rw [heq]
    exact List.get?_mem h

theorem wchan_wakeone_rest_mem (wc : Wchan) (pick : Nat) (t : Tid)
    (h : t ∈ (wchan_wakeone wc pick).2.wc_threads) : t ∈ wc.wc_threads := by
  unfold wchan_wakeone at h
  split at h
  · exact h
  · rename_i t0 ts heq
    rw [heq]
    exact List.mem_of_mem_eraseIdx h

theorem wchan_wakeone_nodup (wc : Wchan) (pick : Nat) (h : wc.wc_threads.Nodup) :
    (wchan_wakeone wc pick).2.wc_threads.Nodup := by
  unfold wchan_wakeone
  split
  · exact h
  · rename_i t0 ts heq
    rw [heq] at h
    exact h.eraseIdx _

theorem wchan_wakeone_woken_not_mem (wc : Wchan) (pick : Nat) (w : Tid)
    (hn : wc.wc_threads.Nodup) (h : (wchan_wakeone wc pick).1 = some w) :
    w ∉ (wchan_wakeone wc pick).2.wc_threads := by
  unfold wchan_wakeone at h ⊢
  split at h
  · simp at h
  · rename_i t0 ts heq
    simp only [heq]
    rw [heq] at hn
    simp only [List.get?_eq_getElem?] at h
    intro hmem
    obtain ⟨i, hik, hi⟩ := List.mem_eraseIdx_iff_getElem?.1 hmem
    have hlt : pick % (t0 :: ts).length < (t0 :: ts).length :=
      Nat.mod_lt _ (by simp)
    exact hik (List.getElem?_inj hlt hn (h.trans hi.symm)).symm

/-! ## Waiters on the cv do not hold the lock -/

theorem wokenOn_wakeone (wc w : Ptr) (o : Option Tid) (rest : List Eff) :
    wokenOn wc (.wchan_wakeone w o :: rest) =
      (if w = wc then o.toList else []) ++ wokenOn wc rest := by
  cases o
  · simp [wokenOn]
  · simp only [wokenOn, Option.toList]
    split <;> simp

theorem Sys.running_iff (s : Sys) (t : Tid) :
    s.running t = true ↔
      t ∉ s.lock.lk_wchan.wc_threads ∧ t ∉ s.lkready
        ∧ t ∉ s.cv.cv_wchan.wc_threads ∧ t ∉ s.cvready := by
  simp [Sys.running, and_assoc]

theorem wchan_wakeone_not_mem_rest (wc : Wchan) (pick : Nat) (t : Tid)
    (h : t ∉ wc.wc_threads) : t ∉ (wchan_wakeone wc pick).2.wc_threads :=
  fun hm => h (wchan_wakeone_rest_mem wc pick t hm)

theorem wchan_wakeone_not_woken (wc : Wchan) (pick : Nat) (t : Tid)
    (h : t ∉ wc.wc_threads) : ¬ (wchan_wakeone wc pick).1 = some t :=
  fun hm => h (wchan_wakeone_woken_mem wc pick t hm)

theorem Sys.step_waitInv (s s1 : Sys) (e : Ev) (h : s.WaitInv) (hs : s.step e = .ok s1) :
    s1.WaitInv := by
  obtain ⟨hobj, hne, hnd, hdis, hw⟩ := h
  rcases e with ⟨t, intr⟩ | ⟨t⟩ | ⟨t, pick⟩ | ⟨t, pick⟩ | ⟨t, intr⟩ | ⟨t, pick⟩ | ⟨t⟩
  all_goals (try cases intr)
  all_goals
    cases hheld : s.lock.lk_isheld <;> by_cases hc : s.lock.lk_currthread = some t <;>
    simp [Sys.step, Sys.settle, Sys.absorb, lock_acquire, lock_acquire_loop, lock_acquire_resume,
      lock_release, cv_wait, cv_wait_resume, cv_signal, cv_broadcast, lock_do_i_hold, Res.lift,
      hheld, hc] at hs
  all_goals (split at hs <;> simp at hs)
  all_goals (subst hs)
  all_goals (simp only [Sys.WaitInv, wokenOn, wokenOn_wakeone, wchan_sleep, wchan_wakeone_addr, wchan_wakeall, hne, hne.symm, if_true, if_false, List.append_nil, List.nil_append])
  all_goals (try simp only [Sys.running_iff] at *)
  all_goals (refine ⟨hobj, hne, ?_, ?_, ?_⟩)
  all_goals (first | assumption | skip)
  all_goals (try (intro u hu; simp_all [lock_do_i_hold, List.mem_filter]; done))
  all_goals (try (
    intro u hu
    have hu1 : u ∈ s.cv.cv_wchan.wc_threads ∨ u ∈ s.cvready := by
      first
        | exact hu
        | exact hu.imp_right (fun m => (List.mem_filter.1 m).1)
    obtain ⟨a, b, c⟩ := hw u hu1
    have hut : u ≠ t := by
      rintro rfl
      simp_all
    simp_all [lock_do_i_hold, List.mem_filter, wchan_wakeone_not_mem_rest,
      wchan_wakeone_not_woken, Ne.symm hut]))
  · -- cv_wait: the caller joins the cv's channel
    rename_i hrun
    exact List.nodup_append.2 ⟨hnd, List.nodup_singleton t, by simpa using hrun.2.2.1⟩
  · rename_i hrun
    intro u hu hmem
    rcases List.mem_append.1 hmem with hm | hm
    · exact hdis u hu hm
    · rw [List.mem_singleton.1 hm] at hu
      exact hrun.2.2.2 hu
  · rename_i hrun
    intro u hu
    have hb : u ∉ s.lock.lk_wchan.wc_threads ∧ u ∉ s.lkready := by
      rcases hu with hu | hu
      · rcases List.mem_append.1 hu with hu | hu
        · exact (hw u (Or.inl hu)).2
        · rw [List.mem_singleton.1 hu]
          exact ⟨hrun.1, hrun.2.1⟩
      · exact (hw u (Or.inr hu)).2
    simp [lock_do_i_hold, hb.2, wchan_wakeone_not_mem_rest _ _ _ hb.1,
      wchan_wakeone_not_woken _ _ _ hb.1]
  · -- cv_signal: one waiter becomes ready
    exact wchan_wakeone_nodup _ _ hnd
  · intro u hu
    rcases List.mem_append.1 hu with hu | hu
    · exact wchan_wakeone_not_mem_rest _ _ _ (hdis u hu)
    · exact wchan_wakeone_woken_not_mem _ _ _ hnd (by simpa using hu)
  · intro u hu
    refine hw u ?_
    rcases hu with hu | hu
    · exact Or.inl (wchan_wakeone_rest_mem _ _ _ hu)
    · rcases List.mem_append.1 hu with hu | hu
      · exact Or.inr hu
      · exact Or.inl (wchan_wakeone_woken_mem _ _ _ (by simpa using hu))
  · -- cv_broadcast: every waiter becomes ready
    exact List.nodup_nil
  · intro u hu
    refine hw u ?_
    rcases hu with hu | hu
    · simp at hu
    · exact (List.mem_append.1 hu).symm

/-! ## Condition variable: `cv_wait` -/

theorem Sys.run_waitInv (evs : List Ev) (s s1 : Sys) (h : s.WaitInv)
    (hr : s.run evs = .ok s1) : s1.WaitInv := by
  induction evs generalizing s with
  | nil =>
    simp [Sys.run] at hr
    subst hr
    exact h
  | cons e es ih =>
    simp only [Sys.run] at hr
    cases hstep : s.step e with
    | error x => simp [hstep] at hr
    | ok s2 =>
      simp only [hstep] at hr
      exact ih s2 (Sys.step_waitInv s s2 e h hstep) hr

theorem cv_create_some (h : Heap) (cv : Cv) (hc : (cv_create h).1 = some cv) :
    cv.cv_wchan.wc_threads = [] := by
  unfold cv_create at hc
  simp only at hc
  repeat' split at hc
  all_goals simp at hc
  all_goals (subst hc; simp)

/-- C6: in any state reached from a free lock and a fresh cv by steps of
the lock and cv functions: a caller that holds the lock and calls `cv_wait`
takes `cv_lock`, then releases the lock (`lk_isheld` false, owner cleared,
one wake-up on the lock's channel) and then sleeps on the cv's channel,
`cv_lock` (the spinlock of another object than the lock) not having been
given up in between; a thread that sleeps in
`cv_wait`, or was woken there and has not resumed, does not hold the lock;
and when the rest of `cv_wait` returns, right after the wake-up or after a
further sleep inside `lock_acquire`, the caller holds the lock, which it
does at once when the lock is free. -/
theorem cv_wait_releases_then_reacquires (lock0 : Lock) (cv0 : Cv) (evs : List Ev) (s : Sys)
    (hfree : lock0.lk_isheld = false)
    (hcv : cv0.cv_wchan.wc_threads = [])
    (hobj : lock0.lk_addr ≠ cv0.cv_addr)
    (hne : lock0.lk_wchan.wc_addr ≠ cv0.cv_wchan.wc_addr)
    (hr : (Sys.init lock0 cv0).run evs = .ok s) :
    s.lock.lk_addr ≠ s.cv.cv_addr
      ∧ (∀ t pick, lock_do_i_hold s.lock t = true →
        ∃ lock1 woken,
          lock_release s.lock t pick =
              .ret lock1 [.spinlock_acquire s.lock.lk_addr,
                          .wchan_wakeone s.lock.lk_wchan.wc_addr woken,
                          .spinlock_release s.lock.lk_addr]
          ∧ lock1.lk_isheld = false ∧ lock1.lk_currthread = none
          ∧ lock_do_i_hold lock1 t = false
          ∧ cv_wait s.cv (some s.lock) t pick =
              .blocked s.cv.cv_wchan.wc_addr
                ({ s.cv with cv_wchan := wchan_sleep s.cv.cv_wchan t }, some lock1)
                [.spinlock_acquire s.cv.cv_addr,
                 .spinlock_acquire s.lock.lk_addr,
                 .wchan_wakeone s.lock.lk_wchan.wc_addr woken,
                 .spinlock_release s.lock.lk_addr,
                 .wchan_sleep s.cv.cv_wchan.wc_addr t])
      ∧ (∀ t, t ∈ s.cv.cv_wchan.wc_threads ∨ t ∈ s.cvready →
          lock_do_i_hold s.lock t = false)
      ∧ (∀ t intr p log, cv_wait_resume s.cv s.lock t intr = .ret p log →
          ∃ lock1, p = (s.cv, some lock1) ∧ lock_do_i_hold lock1 t = true)
      ∧ (∀ t lock1 log, lock_acquire_resume s.lock t = .ret lock1 log →
          lock_do_i_hold lock1 t = true)
      ∧ (∀ t, s.lock.lk_isheld = false → (cv_wait_resume s.cv s.lock t false).isRet = true) := by
  have h0 : (Sys.init lock0 cv0).WaitInv := by
    simp [Sys.WaitInv, Sys.init, hcv, hne, hobj, lock_do_i_hold, hfree]
  obtain ⟨hobj1, -, -, -, hw⟩ := Sys.run_waitInv evs _ s h0 hr
  refine ⟨hobj1, ?_, fun t ht => (hw t ht).1, ?_, ?_, ?_⟩
  · intro t pick hold
    refine ⟨{ s.lock with lk_isheld := false, lk_currthread := none,
                           lk_wchan := (wchan_wakeone s.lock.lk_wchan pick).2 },
      (wchan_wakeone s.lock.lk_wchan pick).1, ?_, rfl, rfl, ?_, ?_⟩
    · simp [lock_release, hold]
    · simp [lock_do_i_hold]
    · simp [cv_wait, lock_release, hold]
  · intro t intr p log h
    cases intr <;> cases hheld : s.lock.lk_isheld <;>
      simp [cv_wait_resume, lock_acquire, lock_acquire_loop, Res.lift, hheld] at h
    obtain ⟨rfl, -⟩ := h
    exact ⟨_, rfl, by simp [lock_do_i_hold]⟩
  · intro t lock1 log h
    cases hheld : s.lock.lk_isheld <;>
      simp [lock_acquire_resume, lock_acquire_loop, hheld] at h
    obtain ⟨rfl, -⟩ := h
    simp [lock_do_i_hold]
  · intro t hheld
    simp [cv_wait_resume, lock_acquire, lock_acquire_loop, Res.lift, hheld, Res.isRet]

theorem cv_wait_releases_then_reacquires_witness :
    ∃ s s2,
      (Sys.init ⟨1, 2, ⟨3, []⟩, none, false, 0⟩ ⟨4, 5, ⟨6, []⟩⟩).run
          [.lock_acquire 0 false, .cv_wait 0 0, .lock_acquire 1 false] = .ok s
      ∧ s.cv.cv_wchan.wc_threads = [0]
      ∧ lock_do_i_hold s.lock 1 = true
      ∧ lock_do_i_hold s.lock 0 = false
      ∧ s.run [.cv_signal 1 0, .lock_release 1 0, .cv_wait_resume 0 false] = .ok s2
      ∧ lock_do_i_hold s2.lock 0 = true ∧ s2.holders = [0] := by
  refine ⟨_, _, rfl, ?_, ?_, ?_, rfl, ?_, ?_⟩
  · rfl
  · rfl
  · exact (cv_wait_releases_then_reacquires ⟨1, 2, ⟨3, []⟩, none, false, 0⟩ ⟨4, 5, ⟨6, []⟩⟩
      [.lock_acquire 0 false, .cv_wait 0 0, .lock_acquire 1 false] _ rfl rfl (by decide)
      (by decide) rfl).2.2.1 0 (Or.inl (List.mem_singleton.2 rfl))
  · rfl
  · rfl

/-! ## Condition variable: the assertions -/

/-- C7 as stated fails for `cv_wait`: thread 0 holds the lock and calls
`cv_wait`; the entry assertion passes and the thread sleeps; woken in an
interrupt handler (`t_in_interrupt` true), the rest of `cv_wait` runs
`lock_acquire`, whose assertion fails.  A fatal assertion failed in the call
although the caller held the lock passed in. -/
theorem cv_wait_fails_though_lock_held :
    caller_holds (some ⟨1, 2, ⟨3, []⟩, some 0, true, 0⟩) 0 = true
      ∧ cv_wait ⟨4, 5, ⟨6, []⟩⟩ (some ⟨1, 2, ⟨3, []⟩, some 0, true, 0⟩) 0 0 =
          .blocked 6 (⟨4, 5, ⟨6, [0]⟩⟩, some ⟨1, 2, ⟨3, []⟩, none, false, 0⟩)
            [.spinlock_acquire 4, .spinlock_acquire 1, .wchan_wakeone 3 none,
             .spinlock_release 1, .wchan_sleep 6 0]
      ∧ cv_wait_resume ⟨4, 5, ⟨6, []⟩⟩ ⟨1, 2, ⟨3, []⟩, none, false, 0⟩ 0 true =
          .panic (⟨4, 5, ⟨6, []⟩⟩, some ⟨1, 2, ⟨3, []⟩, none, false, 0⟩)
            [.spinlock_release 4] := by
  refine ⟨rfl, rfl, rfl⟩

/-- C7, amended: each of `cv_wait`, `cv_signal` and `cv_broadcast` on a
non-null cv fails its entry assertion exactly when the caller does not hold
the lock passed in, and then the cv and the lock are as before and nothing
was issued.  When the caller holds the lock, `cv_wait` sleeps, and the only
other assertion of the call is the one of `lock_acquire` after the wake-up,
which fails exactly when the thread is in an interrupt handler; `cv_signal`
issues one `wchan_wakeone` and `cv_broadcast` one `wchan_wakeall` on the
cv's wait channel, under `cv_lock`, and both return with the lock as it
was, held by the caller. -/
theorem cv_assertions (cv : Cv) (lock : Option Lock) (t : Tid) (pick : Nat) :
    ((cv_wait cv lock t pick).isPanic = true ↔ caller_holds lock t = false)
      ∧ ((cv_signal cv lock t pick).isPanic = true ↔ caller_holds lock t = false)
      ∧ ((cv_broadcast cv lock t).isPanic = true ↔ caller_holds lock t = false)
      ∧ (caller_holds lock t = false →
          cv_wait cv lock t pick = .panic (cv, lock) []
            ∧ cv_signal cv lock t pick = .panic (cv, lock) []
            ∧ cv_broadcast cv lock t = .panic (cv, lock) [])
      ∧ (caller_holds lock t = true →
          ∃ p log, cv_wait cv lock t pick = .blocked cv.cv_wchan.wc_addr p log)
      ∧ (∀ l intr, lock = some l →
          ((cv_wait_resume cv l t intr).isPanic = true ↔ intr = true))
      ∧ (caller_holds lock t = true →
          cv_signal cv lock t pick =
              .ret ({ cv with cv_wchan := (wchan_wakeone cv.cv_wchan pick).2 }, lock)
                [.spinlock_acquire cv.cv_addr,
                 .wchan_wakeone cv.cv_wchan.wc_addr (wchan_wakeone cv.cv_wchan pick).1,
                 .spinlock_release cv.cv_addr]
            ∧ cv_broadcast cv lock t =
              .ret ({ cv with cv_wchan := ⟨cv.cv_wchan.wc_addr, []⟩ }, lock)
                [.spinlock_acquire cv.cv_addr,
                 .wchan_wakeall cv.cv_wchan.wc_addr cv.cv_wchan.wc_threads,
                 .spinlock_release cv.cv_addr]) := by
  cases lock with
  | none =>
    simp [cv_wait, cv_signal, cv_broadcast, caller_holds, Res.isPanic]
  | some l =>
    have hres : ∀ l1 intr, some l = some l1 →
        ((cv_wait_resume cv l1 t intr).isPanic = true ↔ intr = true) := by
      intro l1 intr _
      cases intr <;> cases hh : l1.lk_isheld <;>
        simp [cv_wait_resume, lock_acquire, lock_acquire_loop, Res.lift, Res.isPanic, hh]
    cases h : lock_do_i_hold l t
    · refine ⟨?_, ?_, ?_, ?_, ?_, hres, ?_⟩ <;>
        simp [caller_holds, h, cv_wait, cv_signal, cv_broadcast, Res.isPanic]
    · refine ⟨?_, ?_, ?_, ?_, ?_, hres, ?_⟩ <;>
        simp [caller_holds, h, cv_wait, cv_signal, cv_broadcast, lock_release, Res.isPanic,
          wchan_wakeall]

theorem cv_assertions_witness :
    caller_holds (some ⟨1, 2, ⟨3, []⟩, some 0, true, 0⟩) 0 = true
      ∧ cv_signal ⟨4, 5, ⟨6, [7, 8]⟩⟩ (some ⟨1, 2, ⟨3, []⟩, some 0, true, 0⟩) 0 0 =
          .ret (⟨4, 5, ⟨6, [8]⟩⟩, some ⟨1, 2, ⟨3, []⟩, some 0, true, 0⟩)
            [.spinlock_acquire 4, .wchan_wakeone 6 (some 7), .spinlock_release 4]
      ∧ cv_broadcast ⟨4, 5, ⟨6, [7, 8]⟩⟩ (some ⟨1, 2, ⟨3, []⟩, some 0, true, 0⟩) 0 =
          .ret (⟨4, 5, ⟨6, []⟩⟩, some ⟨1, 2, ⟨3, []⟩, some 0, true, 0⟩)
            [.spinlock_acquire 4, .wchan_wakeall 6 [7, 8], .spinlock_release 4]
      ∧ cv_signal ⟨4, 5, ⟨6, [7, 8]⟩⟩ (some ⟨1, 2, ⟨3, []⟩, some 0, true, 0⟩) 9 0 =
          .panic (⟨4, 5, ⟨6, [7, 8]⟩⟩, some ⟨1, 2, ⟨3, []⟩, some 0, true, 0⟩) [] :=
  ⟨rfl, rfl, rfl,
    ((cv_assertions ⟨4, 5, ⟨6, [7, 8]⟩⟩ (some ⟨1, 2, ⟨3, []⟩, some 0, true, 0⟩) 9 0).2.2.2.1
      rfl).2.1⟩

/-! ## Reader-writer lock: admission of readers -/

theorem rwlock_acquire_read_ret (rw rw1 : RwLock) (t : Tid) (intr : Bool) (pick : Nat)
    (log : List Eff) (h : rwlock_acquire_read rw t intr pick = .ret rw1 log) :
    rw.rwlock_win = false ∧ rw.rwlock_wrc = 0
      ∧ rw1.rwlock_rin = true ∧ rw1.rwlock_rc = uinc rw.rwlock_rc
      ∧ rw1.rwlock_rrc = udec (uinc rw.rwlock_rrc)
      ∧ rw1.rwlock_wrc = rw.rwlock_wrc ∧ rw1.rwlock_win = rw.rwlock_win := by
  cases intr <;> cases hheld : rw.rwlock_sleep.lk_isheld <;> cases hwin : rw.rwlock_win <;>
    by_cases hw : rw.rwlock_wrc = 0 <;>
    simp [rwlock_acquire_read, rwlock_acquire_read_loop, lock_acquire, lock_acquire_loop,
      lock_release, lock_do_i_hold, cv_wait, Res.lift, Res.seq, RwLock.putGate, RwLock.putR,
      hheld, hwin, hw, Nat.pos_of_ne_zero] at h
  obtain ⟨rfl, -⟩ := h
  simp [hw, hwin]

theorem rwlock_acquire_read_resume_ret (rw rw1 : RwLock) (t : Tid) (intr : Bool) (pick : Nat)
    (log : List Eff) (h : rwlock_acquire_read_resume rw t intr pick = .ret rw1 log) :
    rw.rwlock_win = false ∧ rw.rwlock_wrc = 0
      ∧ rw1.rwlock_rin = true ∧ rw1.rwlock_rc = uinc rw.rwlock_rc
      ∧ rw1.rwlock_rrc = udec rw.rwlock_rrc
      ∧ rw1.rwlock_wrc = rw.rwlock_wrc ∧ rw1.rwlock_win = rw.rwlock_win := by
  cases intr <;> cases hheld : rw.rwlock_sleep.lk_isheld <;> cases hwin : rw.rwlock_win <;>
    by_cases hw : rw.rwlock_wrc = 0 <;>
    simp [rwlock_acquire_read_resume, rwlock_acquire_read_loop, lock_acquire, lock_acquire_loop,
      lock_release, lock_do_i_hold, cv_wait, cv_wait_resume, Res.lift, Res.seq, RwLock.putGate,
      RwLock.putR, hheld, hwin, hw, Nat.pos_of_ne_zero] at h
  obtain ⟨rfl, -⟩ := h
  simp [hw, hwin]

theorem RwSys.step_rc (s s1 : RwSys) (e : RwEv) (hs : s.step e = .ok s1) :
    (s1.readers.length = s.readers.length + 1 →
        s.rw.rwlock_win = false ∧ s.rw.rwlock_wrc = 0
          ∧ s1.rw.rwlock_rc = uinc s.rw.rwlock_rc ∧ s1.rw.rwlock_rin = true)
      ∧ (s.rw.rwlock_win = true ∨ s.rw.rwlock_wrc ≠ 0 →
          (s1.rw.rwlock_rc = s.rw.rwlock_rc ∨ s1.rw.rwlock_rc = udec s.rw.rwlock_rc)
            ∧ s1.readers.length ≤ s.readers.length) := by
  have hgate : s.rw.rwlock_sleep.lk_isheld = false := by
    cases hg : s.rw.rwlock_sleep.lk_isheld
    · rfl
    · simp [RwSys.step, hg] at hs
  rcases e with ⟨t, intr, pick⟩ | ⟨t, intr, pick⟩ | ⟨t, intr, pickc, pick⟩ | ⟨t, intr, pick⟩
    | ⟨t, intr, pick⟩ | ⟨t, intr, pickc, pick⟩
  · cases intr <;> cases hwin : s.rw.rwlock_win <;> by_cases hw : s.rw.rwlock_wrc = 0 <;>
      simp [RwSys.step, RwSys.settle, RwSys.absorb, rwlock_acquire_read,
        rwlock_acquire_read_loop, lock_acquire, lock_acquire_loop,
        lock_release, lock_do_i_hold, cv_wait, Res.lift, Res.seq, RwLock.putGate, RwLock.putR,
        hgate, hwin, hw, Nat.pos_of_ne_zero] at hs
    all_goals (split at hs <;> simp at hs)
    all_goals (subst hs)
    all_goals simp [hwin, hw]
  · cases intr <;> cases hwin : s.rw.rwlock_win <;> by_cases hw : s.rw.rwlock_wrc = 0 <;>
      simp [RwSys.step, RwSys.settle, RwSys.absorb, rwlock_acquire_read_resume,
        rwlock_acquire_read_loop, lock_acquire, lock_acquire_loop,
        lock_release, lock_do_i_hold, cv_wait, cv_wait_resume, Res.lift, Res.seq,
        RwLock.putGate, RwLock.putR, hgate, hwin, hw, Nat.pos_of_ne_zero] at hs
    all_goals (split at hs <;> simp at hs)
    all_goals (subst hs)
    all_goals simp [hwin, hw]
  · cases intr <;> cases hrin : s.rw.rwlock_rin <;>
      by_cases hrc : udec s.rw.rwlock_rc = 0 <;> by_cases hw : s.rw.rwlock_wrc = 0 <;>
      simp [RwSys.step, RwSys.settle, RwSys.absorb, rwlock_release_read,
        lock_acquire, lock_acquire_loop, lock_release, lock_do_i_hold, cv_signal, cv_broadcast,
        Res.lift, Res.seq, RwLock.putGate, RwLock.putR, RwLock.putW, hgate, hrin, hrc, hw,
        Nat.pos_of_ne_zero] at hs
    all_goals (split at hs <;> simp at hs)
    all_goals (subst hs)
    all_goals simp [hw]
    all_goals (
      have hle := List.length_erase_le t s.readers
      refine ⟨by omega, ?_⟩
      first
        | exact hle
        | exact fun _ => hle
        | exact ⟨Or.inr hrc.symm, hle⟩
        | exact fun _ => ⟨Or.inr hrc.symm, hle⟩)
  · cases intr <;> cases hwin : s.rw.rwlock_win <;> by_cases hrc : s.rw.rwlock_rc = 0 <;>
      simp [RwSys.step, RwSys.settle, RwSys.absorb, rwlock_acquire_write,
        rwlock_acquire_write_loop, lock_acquire, lock_acquire_loop,
        lock_release, lock_do_i_hold, cv_wait, Res.lift, Res.seq, RwLock.putGate, RwLock.putW,
        hgate, hwin, hrc, Nat.pos_of_ne_zero] at hs
    all_goals (split at hs <;> simp at hs)
    all_goals (subst hs)
    all_goals simp [hwin, hrc]
  · cases intr <;> cases hwin : s.rw.rwlock_win <;> by_cases hrc : s.rw.rwlock_rc = 0 <;>
      simp [RwSys.step, RwSys.settle, RwSys.absorb, rwlock_acquire_write_resume,
        rwlock_acquire_write_loop, lock_acquire, lock_acquire_loop,
        lock_release, lock_do_i_hold, cv_wait, cv_wait_resume, Res.lift, Res.seq,
        RwLock.putGate, RwLock.putW, hgate, hwin, hrc, Nat.pos_of_ne_zero] at hs
    all_goals (split at hs <;> simp at hs)
    all_goals (subst hs)
    all_goals simp [hwin, hrc]
  · cases intr <;> cases hwin : s.rw.rwlock_win <;> by_cases hrrc : s.rw.rwlock_rrc = 0 <;>
      simp [RwSys.step, RwSys.settle, RwSys.absorb, rwlock_release_write,
        lock_acquire, lock_acquire_loop, lock_release, lock_do_i_hold, cv_signal, cv_broadcast,
        Res.lift, Res.seq, RwLock.putGate, RwLock.putR, RwLock.putW, hgate, hwin, hrrc,
        Nat.pos_of_ne_zero] at hs
    all_goals (split at hs <;> simp at hs)
    all_goals (subst hs)
    all_goals simp [hwin]

/-- C8: in any state, a step admits a reader (one more thread has returned
from `rwlock_acquire_read`) only if `rwlock_win` was false and `rwlock_wrc`
was 0 before the step, and it then increments `rwlock_rc` and sets
`rwlock_rin`; so for a step taken while `rwlock_wrc` is not 0 no reader is
admitted and `rwlock_rc` is left alone or decremented by a release, never
incremented.  The same on the C functions: `rwlock_acquire_read`, from its
entry or from a wake-up, returns only from such a state, with
`rwlock_rrc` decremented, `rwlock_rin` set and `rwlock_rc` incremented. -/
theorem reader_admission_rule (s s1 : RwSys) (e : RwEv) (hs : s.step e = .ok s1) :
    (s1.readers.length = s.readers.length + 1 →
        s.rw.rwlock_win = false ∧ s.rw.rwlock_wrc = 0
          ∧ s1.rw.rwlock_rc = uinc s.rw.rwlock_rc ∧ s1.rw.rwlock_rin = true)
      ∧ (s.rw.rwlock_wrc ≠ 0 →
          (s1.rw.rwlock_rc = s.rw.rwlock_rc ∨ s1.rw.rwlock_rc = udec s.rw.rwlock_rc)
            ∧ s1.readers.length ≤ s.readers.length)
      ∧ (∀ t intr pick rw1 log, rwlock_acquire_read s.rw t intr pick = .ret rw1 log →
          s.rw.rwlock_win = false ∧ s.rw.rwlock_wrc = 0
            ∧ rw1.rwlock_rin = true ∧ rw1.rwlock_rc = uinc s.rw.rwlock_rc
            ∧ rw1.rwlock_rrc = udec (uinc s.rw.rwlock_rrc))
      ∧ (∀ t intr pick rw1 log, rwlock_acquire_read_resume s.rw t intr pick = .ret rw1 log →
          s.rw.rwlock_win = false ∧ s.rw.rwlock_wrc = 0
            ∧ rw1.rwlock_rin = true ∧ rw1.rwlock_rc = uinc s.rw.rwlock_rc
            ∧ rw1.rwlock_rrc = udec s.rw.rwlock_rrc) := by
  obtain ⟨h1, h2⟩ := RwSys.step_rc s s1 e hs
  refine ⟨h1, fun hw => h2 (Or.inr hw), ?_, ?_⟩
  · intro t intr pick rw1 log h
    have a := rwlock_acquire_read_ret s.rw rw1 t intr pick log h
    exact ⟨a.1, a.2.1, a.2.2.1, a.2.2.2.1, a.2.2.2.2.1⟩
  · intro t intr pick rw1 log h
    have a := rwlock_acquire_read_resume_ret s.rw rw1 t intr pick log h
    exact ⟨a.1, a.2.1, a.2.2.1, a.2.2.2.1, a.2.2.2.2.1⟩

theorem reader_admission_rule_witness :
    (rwlock0 none).map (fun rw =>
        (RwSys.init rw).run [.acquire_read 0 false 0, .acquire_write 1 false 0]) =
      some (.ok
        ⟨⟨1, 2, ⟨3, 4, ⟨5, []⟩⟩, ⟨6, 7, ⟨8, [1]⟩⟩, ⟨9, 10, ⟨11, []⟩, none, false, 0⟩,
          true, false, 1, 0, 1⟩, [], [], [], [0]⟩)
      ∧ RwSys.step
          ⟨⟨1, 2, ⟨3, 4, ⟨5, []⟩⟩, ⟨6, 7, ⟨8, [1]⟩⟩, ⟨9, 10, ⟨11, []⟩, none, false, 0⟩,
          true, false, 1, 0, 1⟩, [], [], [], [0]⟩
          (.acquire_read 2 false 0) =
        .ok
          ⟨⟨1, 2, ⟨3, 4, ⟨5, [2]⟩⟩, ⟨6, 7, ⟨8, [1]⟩⟩, ⟨9, 10, ⟨11, []⟩, none, false, 0⟩,
          true, false, 1, 1, 1⟩, [], [], [], [0]⟩
      ∧ ((1 = 1 ∨ 1 = udec 1) ∧ [0].length ≤ [0].length) :=
  ⟨rfl, rfl,
    (reader_admission_rule
      ⟨⟨1, 2, ⟨3, 4, ⟨5, []⟩⟩, ⟨6, 7, ⟨8, [1]⟩⟩, ⟨9, 10, ⟨11, []⟩, none, false, 0⟩,
          true, false, 1, 0, 1⟩, [], [], [], [0]⟩
      ⟨⟨1, 2, ⟨3, 4, ⟨5, [2]⟩⟩, ⟨6, 7, ⟨8, [1]⟩⟩, ⟨9, 10, ⟨11, []⟩, none, false, 0⟩,
          true, false, 1, 1, 1⟩, [], [], [], [0]⟩
      (.acquire_read 2 false 0) rfl).2.1 (by decide)⟩

/-! ## Creation: failed allocations -/

/-- C9, evaluated on the code: when `wchan_create` fails in `lock_create`
(the third request), the function frees the name and the struct, sets
`lock = NULL` and, having no `return` there, goes on to
`spinlock_init(&lock->lk_lock)` and to the stores to `lock->lk_count` and
`lock->lk_isheld`: three accesses through `NULL`.  `rwlock_create` inherits
this when its `lock_create` fails there (the eleventh request).  At every
other failure point of the four create functions the result is `NULL`,
nothing is reached through a `NULL` or freed pointer, and what was
allocated is freed once in reverse order. -/
theorem lock_create_touches_null :
    (lock_create none (Heap.failing 2)).1 = none
      ∧ (lock_create none (Heap.failing 2)).2.log =
          [.alloc 1, .alloc 2, .access 1, .access 1, .access 1, .access 1, .access 1,
           .access 1, .free 2, .free 1, .spinlock_init 0, .access 0, .access 0]
      ∧ memSafe (lock_create none (Heap.failing 2)).2.log = false
      ∧ (rwlock_create none (Heap.failing 10)).1 = none
      ∧ memSafe (rwlock_create none (Heap.failing 10)).2.log = false
      ∧ (List.range 3).all (fun k => cleanFailure (sem_create 7 (Heap.failing k))) = true
      ∧ (List.range 3).all (fun k => cleanFailure (cv_create (Heap.failing k))) = true
      ∧ (List.range 2).all (fun k => cleanFailure (lock_create none (Heap.failing k))) = true
      ∧ (List.range 10).all (fun k => cleanFailure (rwlock_create none (Heap.failing k))) = true
      ∧ cleanFailure (lock_create none (Heap.failing 2)) = false
      ∧ cleanFailure (rwlock_create none (Heap.failing 10)) = false := by
  refine ⟨rfl, rfl, rfl, rfl, rfl, ?_, ?_, ?_, ?_, ?_, ?_⟩ <;> decide

/-! ## Destruction of a held primitive -/

theorem lock_destroy_held (lock : Lock) (h : lock.lk_isheld = true) :
    lock_destroy lock = .panic lock [] := by
  simp [lock_destroy, h]

theorem rwlock_destroy_not_quiescent (rw : RwLock)
    (h : rw.rwlock_rin = true ∨ rw.rwlock_win = true ∨ rw.rwlock_wrc ≠ 0 ∨ rw.rwlock_rc ≠ 0) :
    rwlock_destroy rw = .panic rw [] := by
  unfold rwlock_destroy
  cases hrin : rw.rwlock_rin <;> cases hwin : rw.rwlock_win <;>
    by_cases hw : rw.rwlock_wrc = 0 <;> by_cases hr : rw.rwlock_rc = 0 <;>
    simp_all

/-- C10, evaluated on the code: thread 0 calls `rwlock_acquire_write` on the
rwlock that `rwlock_create` returned, and returns; it has not released.
`rwlock_destroy` then passes its four assertions (`rwlock_win` was never
set) and frees the two cvs, the name, the gate lock and the struct.  With a
reader in instead, or with a held lock given to `lock_destroy`, the
assertion fails before anything is freed. -/
theorem rwlock_destroy_with_writer_in :
    (rwlock0 none).map (fun rw => (RwSys.init rw).run [.acquire_write 0 false 0]) =
        some (.ok
          ⟨⟨1, 2, ⟨3, 4, ⟨5, []⟩⟩, ⟨6, 7, ⟨8, []⟩⟩, ⟨9, 10, ⟨11, []⟩, none, false, 0⟩,
            false, false, 0, 0, 0⟩, [], [], [0], []⟩)
      ∧ rwlock_destroy
          ⟨1, 2, ⟨3, 4, ⟨5, []⟩⟩, ⟨6, 7, ⟨8, []⟩⟩, ⟨9, 10, ⟨11, []⟩, none, false, 0⟩,
            false, false, 0, 0, 0⟩ =
        .ret
          ⟨1, 2, ⟨3, 4, ⟨5, []⟩⟩, ⟨6, 7, ⟨8, []⟩⟩, ⟨9, 10, ⟨11, []⟩, none, false, 0⟩,
            false, false, 0, 0, 0⟩
          [.free 5, .spinlock_cleanup 3, .free 4, .free 3,
           .free 8, .spinlock_cleanup 6, .free 7, .free 6,
           .free 2, .spinlock_cleanup 9, .free 11, .free 10, .free 9, .free 1]
      ∧ (rwlock0 none).map (fun rw =>
          ((RwSys.init rw).run [.acquire_read 0 false 0]).map
            fun s => (s.readers, rwlock_destroy s.rw == .panic s.rw [])) =
        some (.ok ([0], true))
      ∧ lock_destroy ⟨9, 10, ⟨11, []⟩, some 0, true, 0⟩ =
          .panic ⟨9, 10, ⟨11, []⟩, some 0, true, 0⟩ [] := by
  refine ⟨rfl, rfl, rfl, rfl⟩

/-! ## Reader-writer lock: releasing -/

/-- C11, evaluated on the code: threads 0 and 1 call `rwlock_acquire_read` on
the rwlock that `rwlock_create` returned and both return (`rwlock_rc` is
2); thread 0 calls `rwlock_release_read`, which passes its assertion,
decrements `rwlock_rc` to 1 and clears `rwlock_rin`.  Thread 1 still holds
the rwlock for reading, and its `rwlock_release_read` fails the entry
assertion `rwlock_rin == true`. -/
theorem rwlock_second_reader_cannot_release :
    (rwlock0 none).map (fun rw =>
        (RwSys.init rw).run [.acquire_read 0 false 0, .acquire_read 1 false 0]) =
      some (.ok
        ⟨⟨1, 2, ⟨3, 4, ⟨5, []⟩⟩, ⟨6, 7, ⟨8, []⟩⟩, ⟨9, 10, ⟨11, []⟩, none, false, 0⟩,
          true, false, 2, 0, 0⟩, [], [], [], [0, 1]⟩)
      ∧ RwSys.step
          ⟨⟨1, 2, ⟨3, 4, ⟨5, []⟩⟩, ⟨6, 7, ⟨8, []⟩⟩, ⟨9, 10, ⟨11, []⟩, none, false, 0⟩,
            true, false, 2, 0, 0⟩, [], [], [], [0, 1]⟩
          (.release_read 0 false 0 0) =
        .ok
          ⟨⟨1, 2, ⟨3, 4, ⟨5, []⟩⟩, ⟨6, 7, ⟨8, []⟩⟩, ⟨9, 10, ⟨11, []⟩, none, false, 0⟩,
            false, false, 1, 0, 0⟩, [], [], [], [1]⟩
      ∧ rwlock_release_read
          ⟨1, 2, ⟨3, 4, ⟨5, []⟩⟩, ⟨6, 7, ⟨8, []⟩⟩, ⟨9, 10, ⟨11, []⟩, none, false, 0⟩,
            false, false, 1, 0, 0⟩ 1 false 0 0 =
        .panic
          ⟨1, 2, ⟨3, 4, ⟨5, []⟩⟩, ⟨6, 7, ⟨8, []⟩⟩, ⟨9, 10, ⟨11, []⟩, none, false, 0⟩,
            false, false, 1, 0, 0⟩ []
      ∧ RwSys.step
          ⟨⟨1, 2, ⟨3, 4, ⟨5, []⟩⟩, ⟨6, 7, ⟨8, []⟩⟩, ⟨9, 10, ⟨11, []⟩, none, false, 0⟩,
            false, false, 1, 0, 0⟩, [], [], [], [1]⟩
          (.release_read 1 false 0 0) =
        .error .panic := by
  refine ⟨rfl, rfl, rfl, rfl⟩

/-- The bodies of the two release functions on a value of the struct, for a
call made outside an interrupt handler with the gate lock free and the
entry assertion passing.  `rwlock_release_read` decrements `rwlock_rc` and
clears `rwlock_rin`; if `rwlock_rc` is still above zero it issues nothing on
either cv, and if it reached zero it issues one `cv_signal` on the writer cv
when `rwlock_wrc` is above zero and one `cv_broadcast` on the reader cv
otherwise.  `rwlock_release_write` clears `rwlock_win` and issues one
`cv_broadcast` on the reader cv when `rwlock_rrc` is above zero and one
`cv_signal` on the writer cv otherwise.  Neither changes `rwlock_rrc` or
`rwlock_wrc`, and both return with the gate lock released.  The second half
is about the text of `rwlock_release_write` only: no run from
`rwlock_create` reaches a state with `rwlock_win` set (`RwSys.run_win`), so
no call of it gets this far. -/
theorem release_handoff (rw : RwLock) (t : Tid) (pickc pick : Nat)
    (hgate : rw.rwlock_sleep.lk_isheld = false) :
    (rw.rwlock_rin = true →
        ∃ rw1,
          rwlock_release_read rw t false pickc pick =
            .ret rw1
              ([.spinlock_acquire rw.rwlock_sleep.lk_addr,
                .spinlock_release rw.rwlock_sleep.lk_addr]
              ++ (if udec rw.rwlock_rc = 0 then
                    if rw.rwlock_wrc > 0 then
                      [.spinlock_acquire rw.rwlock_wcv.cv_addr,
                       .wchan_wakeone rw.rwlock_wcv.cv_wchan.wc_addr
                         (wchan_wakeone rw.rwlock_wcv.cv_wchan pickc).1,
                       .spinlock_release rw.rwlock_wcv.cv_addr]
                    else
                      [.spinlock_acquire rw.rwlock_rcv.cv_addr,
                       .wchan_wakeall rw.rwlock_rcv.cv_wchan.wc_addr
                         rw.rwlock_rcv.cv_wchan.wc_threads,
                       .spinlock_release rw.rwlock_rcv.cv_addr]
                  else [])
              ++ [.spinlock_acquire rw.rwlock_sleep.lk_addr,
                  .wchan_wakeone rw.rwlock_sleep.lk_wchan.wc_addr
                    (wchan_wakeone rw.rwlock_sleep.lk_wchan pick).1,
                  .spinlock_release rw.rwlock_sleep.lk_addr])
          ∧ rw1.rwlock_rc = udec rw.rwlock_rc ∧ rw1.rwlock_rin = false
          ∧ rw1.rwlock_win = rw.rwlock_win
          ∧ rw1.rwlock_rrc = rw.rwlock_rrc ∧ rw1.rwlock_wrc = rw.rwlock_wrc
          ∧ rw1.rwlock_sleep.lk_isheld = false ∧ rw1.rwlock_sleep.lk_currthread = none)
      ∧ (rw.rwlock_win = true →
        ∃ rw1,
          rwlock_release_write rw t false pickc pick =
            .ret rw1
              ([.spinlock_acquire rw.rwlock_sleep.lk_addr,
                .spinlock_release rw.rwlock_sleep.lk_addr]
              ++ (if rw.rwlock_rrc > 0 then
                    [.spinlock_acquire rw.rwlock_rcv.cv_addr,
                     .wchan_wakeall rw.rwlock_rcv.cv_wchan.wc_addr
                       rw.rwlock_rcv.cv_wchan.wc_threads,
                     .spinlock_release rw.rwlock_rcv.cv_addr]
                  else
                    [.spinlock_acquire rw.rwlock_wcv.cv_addr,
                     .wchan_wakeone rw.rwlock_wcv.cv_wchan.wc_addr
                       (wchan_wakeone rw.rwlock_wcv.cv_wchan pickc).1,
                     .spinlock_release rw.rwlock_wcv.cv_addr])
              ++ [.spinlock_acquire rw.rwlock_sleep.lk_addr,
                  .wchan_wakeone rw.rwlock_sleep.lk_wchan.wc_addr
                    (wchan_wakeone rw.rwlock_sleep.lk_wchan pick).1,
                  .spinlock_release rw.rwlock_sleep.lk_addr])
          ∧ rw1.rwlock_win = false ∧ rw1.rwlock_rc = rw.rwlock_rc
          ∧ rw1.rwlock_rin = rw.rwlock_rin
          ∧ rw1.rwlock_rrc = rw.rwlock_rrc ∧ rw1.rwlock_wrc = rw.rwlock_wrc
          ∧ rw1.rwlock_sleep.lk_isheld = false ∧ rw1.rwlock_sleep.lk_currthread = none) := by
  constructor
  · intro hrin
    by_cases hrc : udec rw.rwlock_rc = 0 <;> by_cases hw : rw.rwlock_wrc = 0 <;>
      simp [rwlock_release_read, lock_acquire, lock_acquire_loop, lock_release, lock_do_i_hold,
        cv_signal, cv_broadcast, wchan_wakeall, Res.lift, Res.seq, RwLock.putGate, RwLock.putR,
        RwLock.putW, hgate, hrin, hrc, hw, Nat.pos_of_ne_zero]
  · intro hwin
    by_cases hrrc : rw.rwlock_rrc = 0 <;>
      simp [rwlock_release_write, lock_acquire, lock_acquire_loop, lock_release, lock_do_i_hold,
        cv_signal, cv_broadcast, wchan_wakeall, Res.lift, Res.seq, RwLock.putGate, RwLock.putR,
        RwLock.putW, hgate, hwin, hrrc, Nat.pos_of_ne_zero]

/-! ## Reader-writer lock: the release of a writer -/

/-- In an interrupt handler either release function, its entry assertion
passing, fails the assertion of `lock_acquire` on the gate with nothing
changed. -/
theorem rwlock_release_in_interrupt (rw : RwLock) (t : Tid) (pickc pick : Nat) :
    (rw.rwlock_rin = true → rwlock_release_read rw t true pickc pick = .panic rw [])
      ∧ (rw.rwlock_win = true → rwlock_release_write rw t true pickc pick = .panic rw []) := by
  cases rw
  constructor <;> intro h <;>
    simp_all [rwlock_release_read, rwlock_release_write, lock_acquire, Res.lift, Res.seq,
      RwLock.putGate]

/-- With `rwlock_win` false, `rwlock_release_write` fails its entry assertion
`KASSERT(rwlock->rwlock_win == true)`: nothing is cleared, no cv function
is called, the gate is not touched. -/
theorem rwlock_release_write_asserts (rw : RwLock) (t : Tid) (intr : Bool) (pickc pick : Nat)
    (h : rw.rwlock_win = false) :
    rwlock_release_write rw t intr pickc pick = .panic rw [] := by
  simp [rwlock_release_write, h]

/-- No step sets `rwlock_win`: the only statement that names it outside
`rwlock_create` and `rwlock_release_write` is the comparison
`rwlock->rwlock_win == true;` that ends `rwlock_acquire_write`. -/
theorem RwSys.step_win (s s1 : RwSys) (e : RwEv) (hs : s.step e = .ok s1)
    (h : s.rw.rwlock_win = false) : s1.rw.rwlock_win = false := by
  have hgate : s.rw.rwlock_sleep.lk_isheld = false := by
    cases hg : s.rw.rwlock_sleep.lk_isheld
    · rfl
    · simp [RwSys.step, hg] at hs
  rcases e with ⟨t, intr, pick⟩ | ⟨t, intr, pick⟩ | ⟨t, intr, pickc, pick⟩ | ⟨t, intr, pick⟩
    | ⟨t, intr, pick⟩ | ⟨t, intr, pickc, pick⟩
  · cases intr <;> by_cases hw : s.rw.rwlock_wrc = 0 <;>
      simp [RwSys.step, RwSys.settle, RwSys.absorb, rwlock_acquire_read,
        rwlock_acquire_read_loop, lock_acquire, lock_acquire_loop,
        lock_release, lock_do_i_hold, cv_wait, Res.lift, Res.seq, RwLock.putGate, RwLock.putR,
        hgate, h, hw, Nat.pos_of_ne_zero] at hs
    all_goals (split at hs <;> simp at hs)
    all_goals (subst hs)
    all_goals simp [h]
  · cases intr <;> by_cases hw : s.rw.rwlock_wrc = 0 <;>
      simp [RwSys.step, RwSys.settle, RwSys.absorb, rwlock_acquire_read_resume,
        rwlock_acquire_read_loop, lock_acquire, lock_acquire_loop,
        lock_release, lock_do_i_hold, cv_wait, cv_wait_resume, Res.lift, Res.seq,
        RwLock.putGate, RwLock.putR, hgate, h, hw, Nat.pos_of_ne_zero] at hs
    all_goals (split at hs <;> simp at hs)
    all_goals (subst hs)
    all_goals simp [h]
  · cases intr <;> cases hrin : s.rw.rwlock_rin <;>
      by_cases hrc : udec s.rw.rwlock_rc = 0 <;> by_cases hw : s.rw.rwlock_wrc = 0 <;>
      simp [RwSys.step, RwSys.settle, RwSys.absorb, rwlock_release_read,
        lock_acquire, lock_acquire_loop, lock_release, lock_do_i_hold, cv_signal, cv_broadcast,
        Res.lift, Res.seq, RwLock.putGate, RwLock.putR, RwLock.putW, hgate, hrin, hrc, hw,
        Nat.pos_of_ne_zero] at hs
    all_goals (split at hs <;> simp at hs)
    all_goals (subst hs)
    all_goals simp [h]
  · cases intr <;> by_cases hrc : s.rw.rwlock_rc = 0 <;>
      simp [RwSys.step, RwSys.settle, RwSys.absorb, rwlock_acquire_write,
        rwlock_acquire_write_loop, lock_acquire, lock_acquire_loop,
        lock_release, lock_do_i_hold, cv_wait, Res.lift, Res.seq, RwLock.putGate, RwLock.putW,
        hgate, h, hrc, Nat.pos_of_ne_zero] at hs
    all_goals (split at hs <;> simp at hs)
    all_goals (subst hs)
    all_goals simp [h]
  · cases intr <;> by_cases hrc : s.rw.rwlock_rc = 0 <;>
      simp [RwSys.step, RwSys.settle, RwSys.absorb, rwlock_acquire_write_resume,
        rwlock_acquire_write_loop, lock_acquire, lock_acquire_loop,
        lock_release, lock_do_i_hold, cv_wait, cv_wait_resume, Res.lift, Res.seq,
        RwLock.putGate, RwLock.putW, hgate, h, hrc, Nat.pos_of_ne_zero] at hs
    all_goals (split at hs <;> simp at hs)
    all_goals (subst hs)
    all_goals simp [h]
  · simp [RwSys.step, RwSys.settle, rwlock_release_write, hgate, h] at hs
    split at hs <;> simp at hs

/-- No run sets `rwlock_win`. -/
theorem RwSys.run_win (evs : List RwEv) (s s1 : RwSys) (hs : s.run evs = .ok s1)
    (h : s.rw.rwlock_win = false) : s1.rw.rwlock_win = false := by
  induction evs generalizing s with
  | nil =>
    simp [RwSys.run] at hs
    subst hs
    exact h
  | cons e es ih =>
    cases hstep : s.step e with
    | error x => simp [RwSys.run, hstep] at hs
    | ok s2 =>
      simp [RwSys.run, hstep] at hs
      exact ih s2 hs (RwSys.step_win s s2 e hstep h)

/-- The rwlock that `rwlock_create` returns has `rwlock_win` false. -/
theorem rwlock_create_win (uninit : Option Tid) (h : Heap) (rw : RwLock)
    (hc : (rwlock_create uninit h).1 = some rw) : rw.rwlock_win = false := by
  unfold rwlock_create at hc
  simp only at hc
  repeat' split at hc
  all_goals simp at hc
  all_goals (subst hc; simp)

/-- From the rwlock that `rwlock_create` returns, after any interleaving of
steps of the four rwlock functions by any threads, `rwlock_win` is false,
so a call of `rwlock_release_write` by any thread, a writer that is in
included, fails its entry assertion and no step of it is taken. -/
theorem rwlock_release_write_after_create (uninit : Option Tid) (h : Heap) (rw : RwLock)
    (evs : List RwEv) (s : RwSys) (t : Tid) (intr : Bool) (pickc pick : Nat)
    (hc : (rwlock_create uninit h).1 = some rw)
    (hr : (RwSys.init rw).run evs = .ok s) :
    s.rw.rwlock_win = false
      ∧ rwlock_release_write s.rw t intr pickc pick = .panic s.rw []
      ∧ s.step (.release_write t intr pickc pick) ≠ .ok s := by
  have hw : s.rw.rwlock_win = false :=
    RwSys.run_win evs (RwSys.init rw) s hr (rwlock_create_win uninit h rw hc)
  refine ⟨hw, rwlock_release_write_asserts s.rw t intr pickc pick hw, ?_⟩
  intro hs
  cases hg : s.rw.rwlock_sleep.lk_isheld
  · simp [RwSys.step, RwSys.settle, rwlock_release_write, hg, hw] at hs
    split at hs <;> simp at hs
  · simp [RwSys.step, hg] at hs

/-- C12, evaluated on the code: thread 0 calls `rwlock_acquire_write` on the
rwlock that `rwlock_create` returned, and returns; `rwlock_win` is still
false.  Its `rwlock_release_write` then fails the entry assertion
`rwlock_win == true`: `rwlock_win` is not cleared by it, no `cv_signal` or
`cv_broadcast` is issued, the gate is not taken or released, and the call
does not return.  The same with a reader waiting: reader 0 is in, writer 1
and then reader 2 go to sleep, reader 0 releases and signals writer 1, which
gets in; `rwlock_rrc` is 1 and reader 2 sleeps on the reader cv, and the
`rwlock_release_write` of writer 1 fails the assertion with no
`cv_broadcast` issued. -/
theorem rwlock_writer_cannot_release :
    (rwlock0 none).map (fun rw => (RwSys.init rw).run [.acquire_write 0 false 0]) =
        some (.ok
          ⟨⟨1, 2, ⟨3, 4, ⟨5, []⟩⟩, ⟨6, 7, ⟨8, []⟩⟩, ⟨9, 10, ⟨11, []⟩, none, false, 0⟩,
            false, false, 0, 0, 0⟩, [], [], [0], []⟩)
      ∧ rwlock_release_write
          ⟨1, 2, ⟨3, 4, ⟨5, []⟩⟩, ⟨6, 7, ⟨8, []⟩⟩, ⟨9, 10, ⟨11, []⟩, none, false, 0⟩,
            false, false, 0, 0, 0⟩ 0 false 0 0 =
        .panic
          ⟨1, 2, ⟨3, 4, ⟨5, []⟩⟩, ⟨6, 7, ⟨8, []⟩⟩, ⟨9, 10, ⟨11, []⟩, none, false, 0⟩,
            false, false, 0, 0, 0⟩ []
      ∧ (rwlock0 none).map (fun rw =>
          (RwSys.init rw).run [.acquire_write 0 false 0, .release_write 0 false 0 0]) =
        some (.error .panic)
      ∧ (rwlock0 none).map (fun rw =>
          (RwSys.init rw).run
            [.acquire_read 0 false 0, .acquire_write 1 false 0, .acquire_read 2 false 0,
             .release_read 0 false 0 0, .resume_write 1 false 0]) =
        some (.ok
          ⟨⟨1, 2, ⟨3, 4, ⟨5, [2]⟩⟩, ⟨6, 7, ⟨8, []⟩⟩, ⟨9, 10, ⟨11, []⟩, none, false, 0⟩,
            false, false, 0, 1, 0⟩, [], [], [1], []⟩)
      ∧ rwlock_release_write
          ⟨1, 2, ⟨3, 4, ⟨5, [2]⟩⟩, ⟨6, 7, ⟨8, []⟩⟩, ⟨9, 10, ⟨11, []⟩, none, false, 0⟩,
            false, false, 0, 1, 0⟩ 1 false 0 0 =
        .panic
          ⟨1, 2, ⟨3, 4, ⟨5, [2]⟩⟩, ⟨6, 7, ⟨8, []⟩⟩, ⟨9, 10, ⟨11, []⟩, none, false, 0⟩,
            false, false, 0, 1, 0⟩ []
      ∧ (rwlock0 none).map (fun rw =>
          (RwSys.init rw).run
            [.acquire_read 0 false 0, .acquire_write 1 false 0, .acquire_read 2 false 0,
             .release_read 0 false 0 0, .resume_write 1 false 0,
             .release_write 1 false 0 0]) =
        some (.error .panic) := by
  refine ⟨rfl, rfl, rfl, rfl, rfl, rfl⟩

end OpsClass
